import Mathlib

/-! # Shallow embedding of the pmm-admin instance lifecycle orchestrator

The Go sources orchestrate three backend services over HTTP (a metric
registry, an exporter process manager and a query-analytics API).  The
repository carries three historical variants of the orchestrator module:

* `V0`  — the earliest variant (first `package pmm` section of `pmm.go`):
  Prom host registration first, client-minted instance UUID, no exporter
  management;
* `HL`  — the host-list variant (`part_001`): `prom-config-api` registry
  (`/hosts/{kind}`), conflict-as-success registration, exporter management,
  reconciliation `List`;
* `Consul` — the catalog variant (second `package pmm` section of
  `pmm.go`): Consul `v1/catalog` registry, `serviceExists` pre-checks.

Each admin operation is modelled as a function in a small effect monad
`AdminM`.  The environment (`World`) is the sequence of HTTP replies the
backends return, one per issued request, consumed positionally; `none` as
a reply models a transport error (`http.Client.Do` returning an error with
a nil response).  The state carries the request counter, the in-memory
client configuration (`a.config`, persisted by `writeConfig`, modelled as
always succeeding) and the trace of issued requests.  Response bodies are
modelled at the granularity the orchestrator decodes them: a `Body`
constructor per payload shape, with a constructor mismatch standing for a
`json.Unmarshal` failure. -/

/-- HTTP method of a request issued by the tool. -/
inductive Method where
  | get
  | post
  | put
  | delete
deriving DecidableEq, Repr

/-- Model of `proto.Instance`: a monitored entity as known to the QAN API and the
local collection agent.  Go zero values are the empty string. -/
structure Instance where
  Subsystem : String := ""
  ParentUUID : String := ""
  UUID : String := ""
  Name : String := ""
  DSN : String := ""
  Distro : String := ""
  Version : String := ""
deriving DecidableEq, Repr

/-- Model of `proto.Host`: a registry (prom-config-api) entry. -/
structure Host where
  Address : String := ""
  Alias : String := ""
deriving DecidableEq, Repr

/-- Model of `proto.AgentConfig`: a config the local agent is running; the
orchestrator reads only `Service` and `UUID`. -/
structure AgentConfig where
  Service : String := ""
  UUID : String := ""
deriving DecidableEq, Repr

/-- Model of `proto.Exporter`: the body POSTed to the process manager. -/
structure Exporter where
  Name : String := ""
  Alias : String := ""
  Port : String := ""
  InstanceUUID : String := ""
  Args : List String := []
deriving DecidableEq, Repr

/-- The persisted client configuration (client address, client UUID,
server address).  The `V0` variant has no `ClientUUID` field; it simply
never touches it here. -/
structure Config where
  ClientAddress : String := ""
  ClientUUID : String := ""
  ServerAddress : String := ""
deriving DecidableEq, Repr

/-- Decoded reply of the agent's `GET /instances`
(`map[string][]proto.Instance`); the orchestrator only reads the keys
`"os"` and `"mysql"`, and a missing key is the empty slice. -/
structure AgentInstances where
  os : List Instance := []
  mysql : List Instance := []
deriving DecidableEq, Repr

/-- Decoded reply of the registry's `GET /hosts`
(`map[string][]proto.Host`); only `"os"`, `"mysql"` and `"mongodb"` are
ever read. -/
structure HostsMap where
  os : List Host := []
  mysql : List Host := []
  mongodb : List Host := []
deriving DecidableEq, Repr

/-- Go map lookup `hosts[hostType]` for the keys the code uses; any other
key is the missing-key empty slice. -/
def HostsMap.lookup (m : HostsMap) : String → List Host
  | "os" => m.os
  | "mysql" => m.mysql
  | "mongodb" => m.mongodb
  | _ => []

/-- One service of a Consul catalog node, as read from the
`GET /v1/catalog/node/{name}` reply: the `Services` map key and its
`Tags`. -/
structure ConsulSvc where
  name : String := ""
  tags : List String := []
deriving DecidableEq, Repr

/-- A row of the host-list variant's `List` output. -/
structure InstanceStatus where
  UUID : String := ""
  Typ : String := ""
  Name : String := ""
  Metrics : String := ""
  Queries : String := ""
deriving DecidableEq, Repr

/-- The host-list variant's `List` output map (keys "os", "mysql",
"mongodb"). -/
structure StatusMap where
  os : List InstanceStatus := []
  mysql : List InstanceStatus := []
  mongodb : List InstanceStatus := []
deriving DecidableEq, Repr

/-- The marshalled `ConsulNode` request body (register/deregister). -/
structure ConsulNodeReq where
  Node : String := ""
  Address : String := ""
  ServiceName : String := ""
  ServicePort : Nat := 0
  Tags : List String := []
  ServiceID : String := ""
deriving DecidableEq, Repr

/-- Summary of a request body, recorded in the trace. -/
inductive ReqBody where
  | empty
  | hostBody (h : Host)
  | instanceBody (i : Instance)
  | exporterBody (e : Exporter)
  | consulBody (n : ConsulNodeReq)
  | cmdBody (verb : String) (uuid : String) (collectFrom : String)
deriving DecidableEq, Repr

/-- A response body, at the granularity the orchestrator decodes it. -/
inductive Body where
  | empty
  | raw (s : String)
  | instancesVal (m : AgentInstances)
  | instanceVal (i : Instance)
  | hostsVal (h : HostsMap)
  | configsVal (cs : List AgentConfig)
  | consulVal (services : Option (List ConsulSvc))
deriving DecidableEq, Repr

/-- An HTTP response (status, `Location` header, decoded body). -/
structure Resp where
  status : Nat := 0
  location : String := ""
  body : Body := .empty
deriving DecidableEq, Repr

/-- A request recorded in the trace. -/
structure Event where
  method : Method
  url : String
  reqBody : ReqBody := .empty
deriving DecidableEq, Repr

/-- The environment: reply to the n-th HTTP request of the run; `none`
models a transport error (nil response). -/
def World : Type := Nat → Option Resp

/-- The error values the orchestrator returns, one constructor per
distinct `error` shape of the source. -/
inductive GoError where
  | transportE (url : String)
  | unmarshalE (url : String)
  | apiE (method : String) (url : String) (got : Nat) (expected : Nat)
  | statusE (url : String) (got : Nat) (expected : Nat)
  | msgE (s : String)
  | errNoOS
  | errNotFound
  | errHostConflict
deriving DecidableEq, Repr

/-- Outcome of a run: normal return, returned `error`, or Go runtime
panic. -/
inductive Outcome (α : Type) where
  | ok (a : α)
  | err (e : GoError)
  | panicked (msg : String)
deriving DecidableEq, Repr

/-- Mutable state threaded through a run: position on the reply tape, the
in-memory client config, and the trace of issued requests. -/
structure St where
  idx : Nat
  cfg : Config
  trace : List Event
deriving Repr

/-- The effect monad of the embedding. -/
def AdminM (α : Type) : Type := World → St → Outcome α × St

instance : Monad AdminM where
  pure a := fun _ s => (.ok a, s)
  bind m f := fun w s =>
    match m w s with
    | (.ok a, s1) => f a w s1
    | (.err e, s1) => (.err e, s1)
    | (.panicked p, s1) => (.panicked p, s1)

/-- Go statement `return err`. -/
def throwE {α : Type} (e : GoError) : AdminM α := fun _ s => (.err e, s)

/-- A Go runtime panic. -/
def panicE {α : Type} (msg : String) : AdminM α := fun _ s => (.panicked msg, s)

/-- Read `a.config`. -/
def getCfg : AdminM Config := fun _ s => (.ok s.cfg, s)

/-- Mutate `a.config` and persist it (`writeConfig`, modelled as
succeeding: file IO is an external collaborator). -/
def putCfg (c : Config) : AdminM Unit := fun _ s => (.ok (), { s with cfg := c })

/-- Issue an HTTP request: record it and consume the next reply. -/
def request (m : Method) (url : String) (b : ReqBody) : AdminM (Option Resp) :=
  fun w s => (.ok (w s.idx), { s with idx := s.idx + 1, trace := s.trace ++ [⟨m, url, b⟩] })

def httpGet (url : String) : AdminM (Option Resp) := request .get url .empty

def httpPost (url : String) (b : ReqBody) : AdminM (Option Resp) := request .post url b

def httpPut (url : String) (b : ReqBody) : AdminM (Option Resp) := request .put url b

def httpDelete (url : String) : AdminM (Option Resp) := request .delete url .empty

/-- Run a sub-call and keep only whether it succeeded, continuing either
way (Go code that assigns `x, err :=` and then never checks `err`).
Panics still propagate. -/
def attempt {α : Type} (m : AdminM α) : AdminM (Option α) := fun w s =>
  match m w s with
  | (.ok a, s1) => (.ok (some a), s1)
  | (.err _, s1) => (.ok none, s1)
  | (.panicked p, s1) => (.panicked p, s1)

/-- Run a sub-call and discard its result and error (Go statement
`a.stopQAN(agentId, in)` whose return value is dropped). -/
def discardErr {α : Type} (m : AdminM α) : AdminM Unit := fun w s =>
  match m w s with
  | (.ok _, s1) => (.ok (), s1)
  | (.err _, s1) => (.ok (), s1)
  | (.panicked p, s1) => (.panicked p, s1)

/-- Run an operation from index 0 with an empty trace. -/
def runM {α : Type} (m : AdminM α) (w : World) (cfg : Config) : Outcome α × St :=
  m w ⟨0, cfg, []⟩

def resultOf {α : Type} (m : AdminM α) (w : World) (cfg : Config) : Outcome α :=
  (runM m w cfg).1

def traceOf {α : Type} (m : AdminM α) (w : World) (cfg : Config) : List Event :=
  (runM m w cfg).2.trace

def cfgAfter {α : Type} (m : AdminM α) (w : World) (cfg : Config) : Config :=
  (runM m w cfg).2.cfg

/-- A finite reply tape; calls past its end get a transport error. -/
def worldOf (rs : List (Option Resp)) : World := fun n => rs.getD n none

/-- Does a Go string start with the byte `0x2F`?  (Used by `API.URL` on
`paths[0]`.) -/
def firstCharSlash (p : String) : Bool := p.toList.head? == some '/'

/-- Embeds `API.URL` from the transport helper: strip an `http://` prefix from
the address, then join `paths` with `/`, omitting the separating slash
when the first path segment already starts with one. -/
def apiURL (addr : String) (paths : List String) : String :=
  let addr2 := if addr.startsWith "http://" then addr.drop 7 else addr
  let slash := if (!paths.isEmpty) && firstCharSlash (paths.headD "") then "" else "/"
  "http://" ++ addr2 ++ slash ++ String.intercalate "/" paths

/-- Constant `AGENT_API_PORT` (api.go of the earliest variant). -/
def AGENT_API_PORT : String := "9000"

/-- Constant `QAN_API_PORT` (api.go of the earliest variant). -/
def QAN_API_PORT : String := "9001"

/-- Constant `PROM_API_PORT` (api.go of the earliest variant). -/
def PROM_API_PORT : String := "9003"

/-- Constant `CONSUL_PORT` (catalog variant of pmm.go). -/
def CONSUL_PORT : String := "8500"

/-- Modelled from the spec: `proto.DEFAULT_AGENT_API_PORT` lives in the
external `percona/pmm` proto package, not in this repository; the
concrete value is irrelevant to every claim (URLs are opaque strings). -/
def DEFAULT_AGENT_API_PORT : String := "9000"

/-- Modelled from the spec: `proto.DEFAULT_QAN_API_PORT`, external
constant, value irrelevant to the claims. -/
def DEFAULT_QAN_API_PORT : String := "9001"

/-- Modelled from the spec: `proto.DEFAULT_PROM_CONFIG_API_PORT`,
external constant, value irrelevant to the claims. -/
def DEFAULT_PROM_CONFIG_API_PORT : String := "9003"

/-- Modelled from the spec: `proto.DEFAULT_METRICS_API_PORT`, external
constant, value irrelevant to the claims. -/
def DEFAULT_METRICS_API_PORT : String := "9004"

/-- Models `json.Unmarshal` into `map[string][]proto.Instance`. -/
def decodeInstances : Body → Option AgentInstances
  | .instancesVal m => some m
  | _ => none

/-- Models `json.Unmarshal` into `proto.Instance`. -/
def decodeInstance : Body → Option Instance
  | .instanceVal i => some i
  | _ => none

/-- Models `json.Unmarshal` into `map[string][]proto.Host`. -/
def decodeHosts : Body → Option HostsMap
  | .hostsVal h => some h
  | _ => none

/-- Models `json.Unmarshal` into `[]proto.AgentConfig`. -/
def decodeConfigs : Body → Option (List AgentConfig)
  | .configsVal cs => some cs
  | _ => none

/-- The Consul node reply: `none` models the literal body `"null"` (node
does not exist), `some svcs` a node object with its `Services` map. -/
def decodeConsul : Body → Option (Option (List ConsulSvc))
  | .consulVal o => some o
  | _ => none

/-- Models `string(bytes)` of a reply used as text (the agent's `GET /id`). -/
def bodyText : Body → String
  | .raw s => s
  | _ => ""

/-- Go panic message for a nil-pointer dereference. -/
def nilDeref : String := "runtime error: invalid memory address or nil pointer dereference"

/-- Go panic message for indexing an empty slice at 0. -/
def indexOutOfRange : String := "runtime error: index out of range [0] with length 0"

namespace PMM

/-- Embeds `Admin.localAgentInstances` (identical in the host-list and catalog
variants): `GET /instances` on the local agent. -/
def localAgentInstances : AdminM AgentInstances := do
  let url := apiURL ("localhost:" ++ DEFAULT_AGENT_API_PORT) ["instances"]
  match ← httpGet url with
  | none => throwE (.transportE url)
  | some r =>
    if r.status ≠ 200 then throwE (.apiE "GET" url r.status 200)
    else
      match decodeInstances r.body with
      | none => throwE (.unmarshalE url)
      | some m => pure m

/-- Embeds `Admin.localAgentId` (identical in both later variants): `GET /id` on
the local agent. -/
def localAgentId : AdminM String := do
  let url := apiURL ("localhost:" ++ DEFAULT_AGENT_API_PORT) ["id"]
  match ← httpGet url with
  | none => throwE (.transportE url)
  | some r =>
    if r.status ≠ 200 then throwE (.apiE "GET" url r.status 200)
    else pure (bodyText r.body)

/-- Embeds `Admin.stopExporter` (identical in both later variants): `DELETE
/{name}/{port}` on the process manager; 200 is success, 404 is a warning
and success, anything else an error. -/
def stopExporter (name port : String) : AdminM Unit := do
  let url := apiURL ("localhost:" ++ DEFAULT_METRICS_API_PORT) [name, port]
  match ← httpDelete url with
  | none => throwE (.transportE url)
  | some r =>
    if r.status = 200 then pure ()
    else if r.status = 404 then pure ()
    else throwE (.apiE "DELETE" url r.status 200)

/-- Embeds `Admin.startExporter` (identical in both later variants): `POST /` to
the process manager; 201 is success; on 409, stop the exporter by
(name, port) and POST once more, anything but 201 then being fatal; any
other first status is fatal. -/
def startExporter (exp : Exporter) : AdminM Unit := do
  let url := apiURL ("localhost:" ++ DEFAULT_METRICS_API_PORT) []
  match ← httpPost url (.exporterBody exp) with
  | none => throwE (.transportE url)
  | some r =>
    if r.status = 201 then pure ()
    else if r.status = 409 then do
      stopExporter exp.Name exp.Port
      match ← httpPost url (.exporterBody exp) with
      | none => throwE (.transportE url)
      | some r2 =>
        if r2.status ≠ 201 then throwE (.apiE "(2) POST" url r2.status 201)
        else pure ()
    else throwE (.apiE "(1) POST" url r.status 201)

/-- Embeds `Admin.stopMySQLExporters` (identical in both later variants): stop
the three mysqld_exporter processes, failing fast. -/
def stopMySQLExporters : AdminM Unit := do
  stopExporter "mysqld_exporter" "9104"
  stopExporter "mysqld_exporter" "9105"
  stopExporter "mysqld_exporter" "9106"

/-- Embeds `Admin.startQAN` (identical in both later variants): PUT a StartTool
command to the QAN API's command endpoint; the Go callers pass a config
map `{"UUID": uuid, "CollectFrom": collectFrom}` (the `in` parameter is
otherwise unused by the function body). -/
def startQAN (agentId : String) (uuid collectFrom : String) : AdminM Unit := do
  let cfg ← getCfg
  let url := apiURL (cfg.ServerAddress ++ ":" ++ DEFAULT_QAN_API_PORT) ["agents", agentId, "cmd"]
  match ← httpPut url (.cmdBody "StartTool" uuid collectFrom) with
  | none => throwE (.transportE url)
  | some r =>
    if r.status ≠ 200 then throwE (.apiE "PUT" url r.status 200)
    else pure ()

/-- Embeds `Admin.stopQAN` (identical in both later variants): PUT a StopTool
command for the instance to the QAN API's command endpoint. -/
def stopQAN (agentId : String) (inst : Instance) : AdminM Unit := do
  let cfg ← getCfg
  let url := apiURL (cfg.ServerAddress ++ ":" ++ DEFAULT_QAN_API_PORT) ["agents", agentId, "cmd"]
  match ← httpPut url (.cmdBody "StopTool" inst.UUID "") with
  | none => throwE (.transportE url)
  | some r =>
    if r.status ≠ 200 then throwE (.apiE "PUT" url r.status 200)
    else pure ()

end PMM

namespace V0

/-- Embeds `Admin.AddMySQL` of the earliest variant (first section of pmm.go):
POST the Prom host first (its `err` is never checked, so a transport
error dereferences a nil response), then fetch the agent's instances,
check for exactly one OS instance, POST a QAN instance with a
client-minted UUID (`freshUUID` stands for the generated v4), treating
any non-201 status — including Conflict — as fatal, then follow the
Location header, fetch the agent id and PUT the StartTool command. -/
def AddMySQL (freshUUID name dsn source : String) (distro version : String) : AdminM Unit := do
  let cfg ← getCfg
  let host : Host := { Address := cfg.ClientAddress, Alias := name }
  let url := apiURL (cfg.ServerAddress ++ ":" ++ PROM_API_PORT) ["hosts", "mysql"]
  match ← httpPost url (.hostBody host) with
  | none => panicE nilDeref
  | some r =>
  if r.status ≠ 201 then throwE (.statusE url r.status 201)
  else do
  let url2 := apiURL ("localhost:" ++ AGENT_API_PORT) ["instances"]
  match ← httpGet url2 with
  | none => throwE (.transportE url2)
  | some r2 =>
  if r2.status ≠ 200 then throwE (.statusE url2 r2.status 200)
  else do
  match decodeInstances r2.body with
  | none => throwE (.unmarshalE url2)
  | some instances =>
  if instances.os.length ≠ 1 then throwE (.msgE "agent reported more than 1 OS instance")
  else do
  let inst0 : Instance :=
    { Subsystem := "mysql", ParentUUID := (instances.os.headD {}).UUID, UUID := freshUUID,
      Name := name, DSN := dsn, Distro := distro, Version := version }
  let url3 := apiURL (cfg.ServerAddress ++ ":" ++ QAN_API_PORT) ["/instances"]
  match ← httpPost url3 (.instanceBody inst0) with
  | none => throwE (.transportE url3)
  | some r3 =>
  if r3.status ≠ 201 then throwE (.statusE url3 r3.status 201)
  else do
  let url4 := r3.location
  match ← httpGet url4 with
  | none => throwE (.transportE url4)
  | some r4 =>
  if r4.status ≠ 200 then throwE (.statusE url4 r4.status 200)
  else do
  match decodeInstance r4.body with
  | none => throwE (.unmarshalE url4)
  | some inst1 =>
  let url5 := apiURL ("localhost:" ++ AGENT_API_PORT) ["id"]
  match ← httpGet url5 with
  | none => throwE (.transportE url5)
  | some r5 =>
  if r5.status ≠ 200 then throwE (.statusE url5 r5.status 200)
  else do
  let agentId := bodyText r5.body
  let url6 := apiURL (cfg.ServerAddress ++ ":" ++ QAN_API_PORT) ["agents", agentId, "cmd"]
  match ← httpPut url6 (.cmdBody "StartTool" inst1.UUID source) with
  | none => throwE (.transportE url6)
  | some r6 =>
  if r6.status ≠ 200 then throwE (.statusE url6 r6.status 200)
  else pure ()

end V0

namespace HL

/-- Embeds `Admin.getHost` (host-list variant): fetch the registry's full hosts
map and return the first host of the given kind with the given alias, or
`ErrNotFound`. -/
def getHost (hostType alias2 : String) : AdminM Host := do
  let cfg ← getCfg
  let url := apiURL (cfg.ServerAddress ++ ":" ++ DEFAULT_PROM_CONFIG_API_PORT) ["hosts"]
  match ← httpGet url with
  | none => throwE (.transportE url)
  | some r =>
    if r.status ≠ 200 then throwE (.apiE "GET" url r.status 200)
    else
      match decodeHosts r.body with
      | none => throwE (.unmarshalE url)
      | some hosts =>
        match (hosts.lookup hostType).find? (fun h => h.Alias == alias2) with
        | some h => pure h
        | none => throwE .errNotFound

/-- Embeds `Admin.startMySQLExporters` (host-list variant): start the three
mysqld_exporter processes (ports 9104/9105/9106) with their hand-tuned
argument profiles, failing fast. -/
def startMySQLExporters (uuid : String) : AdminM Unit := do
  let cfg ← getCfg
  PMM.startExporter
    { Name := "mysqld_exporter", Alias := "high res", Port := "9104", InstanceUUID := uuid,
      Args := [
        "-web.listen-address=" ++ cfg.ClientAddress ++ ":9104",
        "-collect.global_status=true",
        "-collect.global_variables=false",
        "-collect.slave_status=false",
        "-collect.info_schema.tables=false",
        "-collect.binlog_size=false",
        "-collect.engine_tokudb_status=false",
        "-collect.info_schema.innodb_metrics=true",
        "-collect.info_schema.processlist=false",
        "-collect.info_schema.userstats=false",
        "-collect.info_schema.query_response_time=false",
        "-collect.auto_increment.columns=false",
        "-collect.info_schema.tablestats=false",
        "-collect.perf_schema.file_events=false",
        "-collect.perf_schema.eventsstatements=false",
        "-collect.perf_schema.indexiowaits=false",
        "-collect.perf_schema.tableiowaits=false",
        "-collect.perf_schema.tablelocks=false",
        "-collect.perf_schema.eventswaits=false"] }
  PMM.startExporter
    { Name := "mysqld_exporter", Alias := "medium res", Port := "9105", InstanceUUID := uuid,
      Args := [
        "-web.listen-address=" ++ cfg.ClientAddress ++ ":9105",
        "-collect.global_status=false",
        "-collect.global_variables=false",
        "-collect.slave_status=true",
        "-collect.info_schema.tables=false",
        "-collect.binlog_size=false",
        "-collect.engine_tokudb_status=false",
        "-collect.info_schema.innodb_metrics=false",
        "-collect.info_schema.processlist=true",
        "-collect.info_schema.userstats=false",
        "-collect.info_schema.query_response_time=true",
        "-collect.auto_increment.columns=false",
        "-collect.info_schema.tablestats=false",
        "-collect.perf_schema.file_events=true",
        "-collect.perf_schema.eventsstatements=false",
        "-collect.perf_schema.indexiowaits=false",
        "-collect.perf_schema.tableiowaits=false",
        "-collect.perf_schema.tablelocks=true",
        "-collect.perf_schema.eventswaits=true"] }
  PMM.startExporter
    { Name := "mysqld_exporter", Alias := "low res", Port := "9106", InstanceUUID := uuid,
      Args := [
        "-web.listen-address=" ++ cfg.ClientAddress ++ ":9106",
        "-collect.global_status=false",
        "-collect.global_variables=true",
        "-collect.slave_status=false",
        "-collect.info_schema.tables=true",
        "-collect.binlog_size=true",
        "-collect.engine_tokudb_status=false",
        "-collect.info_schema.innodb_metrics=false",
        "-collect.info_schema.processlist=false",
        "-collect.info_schema.userstats=true",
        "-collect.info_schema.query_response_time=false",
        "-collect.auto_increment.columns=true",
        "-collect.info_schema.tablestats=true",
        "-collect.perf_schema.file_events=false",
        "-collect.perf_schema.eventsstatements=true",
        "-collect.perf_schema.indexiowaits=true",
        "-collect.perf_schema.tableiowaits=true",
        "-collect.perf_schema.tablelocks=false",
        "-collect.perf_schema.eventswaits=false"] }

/-- Embeds `Admin.AddOS` (host-list variant): require exactly one local OS
instance; when `start`, launch node_exporter and POST the host to
`/hosts/os`, treating Conflict with a matching address as success and a
mismatched address as `ErrHostConflict`; finally record the client
address and OS UUID in the local config. -/
def AddOS (addr : String) (start : Bool) : AdminM Unit := do
  let instances ← PMM.localAgentInstances
  if instances.os.length ≠ 1 then
    throwE (.msgE "agent reported more than 1 OS instance")
  else do
  let os1 := instances.os.headD {}
  let cfg ← getCfg
  if start then do
    PMM.startExporter
      { Name := "node_exporter", Alias := os1.Name ++ " metrics", Port := "9100",
        Args := ["-collectors.enabled=diskstats,filesystem,loadavg,meminfo,netdev,netstat,stat,time,uname,vmstat"] }
    let host : Host := { Address := addr, Alias := os1.Name }
    let url := apiURL (cfg.ServerAddress ++ ":" ++ DEFAULT_PROM_CONFIG_API_PORT) ["hosts", "os"]
    match ← httpPost url (.hostBody host) with
    | none => throwE (.transportE url)
    | some r =>
      if r.status = 201 then pure ()
      else if r.status = 409 then do
        let oldHost ← getHost "os" host.Alias
        if oldHost.Address == host.Address then pure ()
        else throwE .errHostConflict
      else throwE (.apiE "POST" url r.status 201)
  else pure ()
  let cfg2 ← getCfg
  putCfg { cfg2 with ClientAddress := addr, ClientUUID := os1.UUID }

/-- Embeds `Admin.RemoveOS` (host-list variant): DELETE `/hosts/os/{name}`,
treating 404 as a warning-only no-op, then stop node_exporter. -/
def RemoveOS (name : String) : AdminM Unit := do
  let cfg ← getCfg
  let url := apiURL (cfg.ServerAddress ++ ":" ++ DEFAULT_PROM_CONFIG_API_PORT) ["hosts", "os", name]
  match ← httpDelete url with
  | none => throwE (.transportE url)
  | some r =>
    if r.status = 200 then pure ()
    else if r.status = 404 then pure ()
    else throwE (.apiE "DELETE" url r.status 200)
  PMM.stopExporter "node_exporter" "9100"

/-- Embeds `Admin.AddMySQL` (host-list variant): precondition ClientAddress set;
exactly one local OS instance; POST the instance (without UUID) to the
QAN API accepting Created or Conflict; follow the Location header and
adopt the fetched instance's UUID; when `start`, start the three
exporters, POST the host to `/hosts/mysql` with conflict-as-success /
`ErrHostConflict` handling, then restart QAN (StopTool's result is
discarded, StartTool must succeed). -/
def AddMySQL (name dsn source : String) (start : Bool) (distro version : String) :
    AdminM Unit := do
  let cfg ← getCfg
  if cfg.ClientAddress = "" then throwE .errNoOS
  else do
  let instances ← PMM.localAgentInstances
  if instances.os.length ≠ 1 then
    throwE (.msgE "agent reported more than 1 OS instance")
  else do
  let inst0 : Instance :=
    { Subsystem := "mysql", ParentUUID := (instances.os.headD {}).UUID,
      Name := name, DSN := dsn, Distro := distro, Version := version }
  let url := apiURL (cfg.ServerAddress ++ ":" ++ DEFAULT_QAN_API_PORT) ["instances"]
  match ← httpPost url (.instanceBody inst0) with
  | none => throwE (.transportE url)
  | some r =>
  if ¬(r.status = 201 ∨ r.status = 409) then throwE (.apiE "POST" url r.status 201)
  else do
  let url2 := r.location
  match ← httpGet url2 with
  | none => throwE (.transportE url2)
  | some r2 =>
  if r2.status ≠ 200 then throwE (.apiE "GET" url2 r2.status 200)
  else do
  match decodeInstance r2.body with
  | none => throwE (.unmarshalE url2)
  | some inst =>
  if start = false then pure ()
  else do
    startMySQLExporters inst.UUID
    let host : Host := { Address := cfg.ClientAddress, Alias := name }
    let url3 := apiURL (cfg.ServerAddress ++ ":" ++ DEFAULT_PROM_CONFIG_API_PORT) ["hosts", "mysql"]
    match ← httpPost url3 (.hostBody host) with
    | none => throwE (.transportE url3)
    | some r3 =>
    (if r3.status = 201 then pure ()
     else if r3.status = 409 then do
       let oldHost ← getHost "mysql" host.Alias
       if oldHost.Address == host.Address then pure ()
       else throwE .errHostConflict
     else throwE (.apiE "POST" url3 r3.status 201))
    let agentId ← PMM.localAgentId
    discardErr (PMM.stopQAN agentId inst)
    PMM.startQAN agentId inst.UUID source

/-- Embeds `Admin.RemoveMySQL` (host-list variant): DELETE `/hosts/mysql/{name}`
— whose transport error is never checked, so a nil response is
dereferenced — treating 404 as a warning-only no-op; stop the three
exporters; then look the instance up among the agent's mysql instances
and, when found, StopTool it (absence is a warning-only success). -/
def RemoveMySQL (name : String) : AdminM Unit := do
  let cfg ← getCfg
  let url := apiURL (cfg.ServerAddress ++ ":" ++ DEFAULT_PROM_CONFIG_API_PORT) ["hosts", "mysql", name]
  match ← httpDelete url with
  | none => panicE nilDeref
  | some r =>
    if r.status = 200 then pure ()
    else if r.status = 404 then pure ()
    else throwE (.apiE "DELETE" url r.status 200)
  PMM.stopMySQLExporters
  let instances ← PMM.localAgentInstances
  match instances.mysql.find? (fun i2 => i2.Name == name) with
  | none => pure ()
  | some inst => do
    let agentId ← PMM.localAgentId
    PMM.stopQAN agentId inst

/-- Embeds `Admin.AddMongoDB` (host-list variant): precondition ClientAddress
set; when `start`, launch mongodb_exporter and POST the host to
`/hosts/mongodb` with conflict-as-success / `ErrHostConflict`
handling.  Note the local OS instance count is never consulted. -/
def AddMongoDB (name : String) (start : Bool) : AdminM Unit := do
  let cfg ← getCfg
  if cfg.ClientAddress = "" then throwE .errNoOS
  else do
  if start = false then pure ()
  else do
  PMM.startExporter
    { Name := "mongodb_exporter", Alias := "MongoDB metrics", Port := "9107",
      Args := ["-web.listen-address=" ++ cfg.ClientAddress ++ ":9107"] }
  let host : Host := { Address := cfg.ClientAddress, Alias := name }
  let url := apiURL (cfg.ServerAddress ++ ":" ++ DEFAULT_PROM_CONFIG_API_PORT) ["hosts", "mongodb"]
  match ← httpPost url (.hostBody host) with
  | none => throwE (.transportE url)
  | some r =>
    if r.status = 201 then pure ()
    else if r.status = 409 then do
      let oldHost ← getHost "mongodb" host.Alias
      if oldHost.Address == host.Address then pure ()
      else throwE .errHostConflict
    else throwE (.apiE "POST" url r.status 201)

/-- Embeds `Admin.RemoveMongoDB` (host-list variant): DELETE
`/hosts/mongodb/{name}`, treating 404 as a warning-only no-op, then stop
mongodb_exporter. -/
def RemoveMongoDB (name : String) : AdminM Unit := do
  let cfg ← getCfg
  let url := apiURL (cfg.ServerAddress ++ ":" ++ DEFAULT_PROM_CONFIG_API_PORT) ["hosts", "mongodb", name]
  match ← httpDelete url with
  | none => throwE (.transportE url)
  | some r =>
    if r.status = 200 then pure ()
    else if r.status = 404 then pure ()
    else throwE (.apiE "DELETE" url r.status 200)
  PMM.stopExporter "mongodb_exporter" "9107"

/-- One step of the host-list `List`'s join loop over the agent's
configs: for each qan config, append a row per agent mysql instance with
a matching UUID; the row gets Metrics="yes" (consuming the pending
registry mysql host) exactly when that host's alias equals the instance
name. -/
def qanStep (mys : List Instance) (acc : Option Host × List InstanceStatus)
    (config : AgentConfig) : Option Host × List InstanceStatus :=
  if config.Service ≠ "qan" then acc
  else
    mys.foldl (fun acc2 inst =>
      if inst.UUID ≠ config.UUID then acc2
      else
        match acc2.1 with
        | some mh =>
          if mh.Alias == inst.Name then
            (none, acc2.2 ++ [{ UUID := inst.UUID, Typ := "mysql", Name := inst.Name,
                                Metrics := "yes", Queries := "yes" }])
          else
            (acc2.1, acc2.2 ++ [{ UUID := inst.UUID, Typ := "mysql", Name := inst.Name,
                                  Metrics := "no", Queries := "yes" }])
        | none =>
          (acc2.1, acc2.2 ++ [{ UUID := inst.UUID, Typ := "mysql", Name := inst.Name,
                                Metrics := "no", Queries := "yes" }])) acc

/-- Embeds `Admin.List` (host-list variant): fetch the registry hosts, the
agent's configs and the agent's instances; pick the first registry os
and mysql hosts whose address is the configured client address; join qan
configs with agent mysql instances by UUID; a surviving (unmatched)
registry mysql host is reported as Metrics="yes"/Queries="no" under the
OS host's alias — dereferencing a nil `osHost` when no registry os host
matched the client address. -/
def listInstances : AdminM StatusMap := do
  let cfg ← getCfg
  let url := apiURL (cfg.ServerAddress ++ ":" ++ DEFAULT_PROM_CONFIG_API_PORT) ["hosts"]
  match ← httpGet url with
  | none => throwE (.transportE url)
  | some r =>
  if r.status ≠ 200 then throwE (.apiE "GET" url r.status 200)
  else do
  match decodeHosts r.body with
  | none => throwE (.unmarshalE url)
  | some hosts =>
  let url2 := apiURL ("localhost:" ++ DEFAULT_AGENT_API_PORT) ["configs"]
  match ← httpGet url2 with
  | none => throwE (.transportE url2)
  | some r2 =>
  if r2.status ≠ 200 then throwE (.apiE "GET" url2 r2.status 200)
  else do
  match decodeConfigs r2.body with
  | none => throwE (.unmarshalE url2)
  | some configs =>
  let osHost := hosts.os.find? (fun h => h.Address == cfg.ClientAddress)
  let mysqlHost := hosts.mysql.find? (fun h => h.Address == cfg.ClientAddress)
  let url3 := apiURL ("localhost:" ++ DEFAULT_AGENT_API_PORT) ["instances"]
  match ← httpGet url3 with
  | none => throwE (.transportE url3)
  | some r3 =>
  if r3.status ≠ 200 then throwE (.apiE "GET" url3 r3.status 200)
  else do
  match decodeInstances r3.body with
  | none => throwE (.unmarshalE url3)
  | some instances =>
  let osList : List InstanceStatus :=
    match osHost, instances.os with
    | some oh, i0 :: _ =>
      if i0.Name == oh.Alias then [{ UUID := i0.UUID, Typ := "os", Name := oh.Alias, Metrics := "yes" }]
      else [{ Typ := "os", Name := oh.Alias, Metrics := "yes" }]
    | some oh, [] => [{ Typ := "os", Name := oh.Alias, Metrics := "yes" }]
    | none, _ => []
  let joined := configs.foldl (qanStep instances.mysql) (mysqlHost, [])
  match joined.1 with
  | none => pure { os := osList, mysql := joined.2 }
  | some _ =>
    match osHost with
    | none => panicE nilDeref
    | some oh =>
      pure { os := osList,
             mysql := joined.2 ++ [{ Typ := "mysql", Name := oh.Alias, Metrics := "yes", Queries := "no" }] }

end HL

namespace Consul

/-- Embeds `Admin.serviceExists` (catalog variant): GET the catalog node and
report whether its `Services` map has the given job as a key (`"null"`
body: node absent, hence false). -/
def serviceExists (host job : String) : AdminM Bool := do
  let cfg ← getCfg
  let url := apiURL (cfg.ServerAddress ++ ":" ++ CONSUL_PORT) ["v1", "catalog", "node", host]
  match ← httpGet url with
  | none => throwE (.transportE url)
  | some r =>
    if r.status ≠ 200 then throwE (.apiE "GET" url r.status 200)
    else
      match decodeConsul r.body with
      | none => throwE (.unmarshalE url)
      | some none => pure false
      | some (some svcs) => pure (svcs.any (fun sv => sv.name == job))

/-- One `PUT /v1/catalog/register` call. -/
def register (n : ConsulNodeReq) : AdminM Unit := do
  let cfg ← getCfg
  let url := apiURL (cfg.ServerAddress ++ ":" ++ CONSUL_PORT) ["v1", "catalog", "register"]
  match ← httpPut url (.consulBody n) with
  | none => throwE (.transportE url)
  | some r =>
    if r.status ≠ 200 then throwE (.apiE "PUT" url r.status 200)
    else pure ()

/-- One `PUT /v1/catalog/deregister` call. -/
def deregister (node serviceID : String) : AdminM Unit := do
  let cfg ← getCfg
  let url := apiURL (cfg.ServerAddress ++ ":" ++ CONSUL_PORT) ["v1", "catalog", "deregister"]
  match ← httpPut url (.consulBody { Node := node, ServiceID := serviceID }) with
  | none => throwE (.transportE url)
  | some r =>
    if r.status ≠ 200 then throwE (.apiE "PUT" url r.status 200)
    else pure ()

/-- Embeds `Admin.AddOS` (catalog variant): exactly one local OS instance;
refuse when Consul already has a `linux` service for the node; when
`start`, launch node_exporter and register the `linux` service; finally
record address and OS UUID in the local config. -/
def AddOS (addr : String) (start : Bool) (replset cluster : String) : AdminM Unit := do
  let instances ← PMM.localAgentInstances
  if instances.os.length ≠ 1 then
    throwE (.msgE "agent reported more than 1 OS instance")
  else do
  let os1 := instances.os.headD {}
  let ok ← serviceExists os1.Name "linux"
  if ok then throwE (.msgE "PMM is already monitoring this OS instance")
  else do
  if start then do
    PMM.startExporter
      { Name := "node_exporter", Alias := "System metrics", Port := "9100",
        Args := ["-web.listen-address=" ++ addr ++ ":9100",
                 "-collectors.enabled=diskstats,filesystem,loadavg,meminfo,netdev,netstat,stat,time,uname,vmstat"] }
    let tags := (if replset ≠ "" then ["replset_" ++ replset] else []) ++
                (if cluster ≠ "" then ["cluster_" ++ cluster] else [])
    register { Node := os1.Name, Address := addr,
               ServiceName := "linux", ServicePort := 9100, Tags := tags }
  else pure ()
  let cfg2 ← getCfg
  putCfg { cfg2 with ClientAddress := addr, ClientUUID := os1.UUID }

/-- Embeds `Admin.RemoveOS` (catalog variant) up to and including the registry
deregistration: error when Consul is not monitoring the node, else
deregister the `linux` service. -/
def removeOSDereg (name : String) : AdminM Unit := do
  let ok ← serviceExists name "linux"
  if ok = false then throwE (.msgE "PMM is not monitoring this OS instance")
  else deregister name "linux"

/-- Embeds `Admin.RemoveOS` (catalog variant): deregister, then stop
node_exporter. -/
def RemoveOS (name : String) : AdminM Unit := do
  removeOSDereg name
  PMM.stopExporter "node_exporter" "9100"

/-- Embeds `Admin.startMySQLExporters` (catalog variant) — identical to the
host-list one except for the alias labels. -/
def startMySQLExporters (uuid : String) : AdminM Unit := do
  let cfg ← getCfg
  PMM.startExporter
    { Name := "mysqld_exporter", Alias := "MySQL high-res metrics", Port := "9104",
      InstanceUUID := uuid,
      Args := [
        "-web.listen-address=" ++ cfg.ClientAddress ++ ":9104",
        "-collect.global_status=true",
        "-collect.global_variables=false",
        "-collect.slave_status=false",
        "-collect.info_schema.tables=false",
        "-collect.binlog_size=false",
        "-collect.engine_tokudb_status=false",
        "-collect.info_schema.innodb_metrics=true",
        "-collect.info_schema.processlist=false",
        "-collect.info_schema.userstats=false",
        "-collect.info_schema.query_response_time=false",
        "-collect.auto_increment.columns=false",
        "-collect.info_schema.tablestats=false",
        "-collect.perf_schema.file_events=false",
        "-collect.perf_schema.eventsstatements=false",
        "-collect.perf_schema.indexiowaits=false",
        "-collect.perf_schema.tableiowaits=false",
        "-collect.perf_schema.tablelocks=false",
        "-collect.perf_schema.eventswaits=false"] }
  PMM.startExporter
    { Name := "mysqld_exporter", Alias := "MySQL medium-res metrics", Port := "9105",
      InstanceUUID := uuid,
      Args := [
        "-web.listen-address=" ++ cfg.ClientAddress ++ ":9105",
        "-collect.global_status=false",
        "-collect.global_variables=false",
        "-collect.slave_status=true",
        "-collect.info_schema.tables=false",
        "-collect.binlog_size=false",
        "-collect.engine_tokudb_status=false",
        "-collect.info_schema.innodb_metrics=false",
        "-collect.info_schema.processlist=true",
        "-collect.info_schema.userstats=false",
        "-collect.info_schema.query_response_time=true",
        "-collect.auto_increment.columns=false",
        "-collect.info_schema.tablestats=false",
        "-collect.perf_schema.file_events=true",
        "-collect.perf_schema.eventsstatements=false",
        "-collect.perf_schema.indexiowaits=false",
        "-collect.perf_schema.tableiowaits=false",
        "-collect.perf_schema.tablelocks=true",
        "-collect.perf_schema.eventswaits=true"] }
  PMM.startExporter
    { Name := "mysqld_exporter", Alias := "MySQL low-res metrics", Port := "9106",
      InstanceUUID := uuid,
      Args := [
        "-web.listen-address=" ++ cfg.ClientAddress ++ ":9106",
        "-collect.global_status=false",
        "-collect.global_variables=true",
        "-collect.slave_status=false",
        "-collect.info_schema.tables=true",
        "-collect.binlog_size=true",
        "-collect.engine_tokudb_status=false",
        "-collect.info_schema.innodb_metrics=false",
        "-collect.info_schema.processlist=false",
        "-collect.info_schema.userstats=true",
        "-collect.info_schema.query_response_time=false",
        "-collect.auto_increment.columns=true",
        "-collect.info_schema.tablestats=true",
        "-collect.perf_schema.file_events=false",
        "-collect.perf_schema.eventsstatements=true",
        "-collect.perf_schema.indexiowaits=true",
        "-collect.perf_schema.tableiowaits=true",
        "-collect.perf_schema.tablelocks=false",
        "-collect.perf_schema.eventswaits=false"] }

/-- Embeds `Admin.AddMySQL` (catalog variant), first phase: precondition
ClientAddress set; exactly one local OS instance; POST the instance
descriptor (without UUID) to the QAN API accepting Created or Conflict;
follow the Location header and return the fetched instance. -/
def addMySQLPre (name dsn : String) (distro version : String) : AdminM Instance := do
  let cfg ← getCfg
  if cfg.ClientAddress = "" then throwE .errNoOS
  else do
  let instances ← PMM.localAgentInstances
  if instances.os.length ≠ 1 then
    throwE (.msgE "agent reported more than 1 OS instance")
  else do
  let inst0 : Instance :=
    { Subsystem := "mysql", ParentUUID := (instances.os.headD {}).UUID,
      Name := name, DSN := dsn, Distro := distro, Version := version }
  let url := apiURL (cfg.ServerAddress ++ ":" ++ DEFAULT_QAN_API_PORT) ["instances"]
  match ← httpPost url (.instanceBody inst0) with
  | none => throwE (.transportE url)
  | some r =>
  if ¬(r.status = 201 ∨ r.status = 409) then throwE (.apiE "POST" url r.status 201)
  else do
  let url2 := r.location
  match ← httpGet url2 with
  | none => throwE (.transportE url2)
  | some r2 =>
  if r2.status ≠ 200 then throwE (.apiE "GET" url2 r2.status 200)
  else do
  match decodeInstance r2.body with
  | none => throwE (.unmarshalE url2)
  | some inst => pure inst

/-- Embeds `Admin.AddMySQL` (catalog variant), registration phase (the part of
the monitoring phase after the exporter starts): refuse when Consul
already has a `mysql-hr` service for the node; register the three mysql
services (the Go source ranges over a map, so the order among the three
registrations is unspecified; the model fixes hr, mr, lr); then restart
QAN (StopTool's result is discarded, StartTool must succeed). -/
def addMySQLRegister (name source : String) (inst : Instance) : AdminM Unit := do
  let cfg ← getCfg
  let ok ← serviceExists name "mysql-hr"
  if ok then throwE (.msgE "PMM is already monitoring this MySQL instance")
  else do
  register { Node := name, Address := cfg.ClientAddress,
             ServiceName := "mysql-hr", ServicePort := 9104 }
  register { Node := name, Address := cfg.ClientAddress,
             ServiceName := "mysql-mr", ServicePort := 9105 }
  register { Node := name, Address := cfg.ClientAddress,
             ServiceName := "mysql-lr", ServicePort := 9106 }
  let agentId ← PMM.localAgentId
  discardErr (PMM.stopQAN agentId inst)
  PMM.startQAN agentId inst.UUID source

/-- Embeds `Admin.AddMySQL` (catalog variant), monitoring phase: start the
three exporters first, then run the registration phase. -/
def addMySQLMonitor (name source : String) (inst : Instance) : AdminM Unit := do
  startMySQLExporters inst.UUID
  addMySQLRegister name source inst

/-- Embeds `Admin.AddMySQL` (catalog variant): the two phases above, the second
only when `start`. -/
def AddMySQL (name dsn source : String) (start : Bool) (distro version : String) :
    AdminM Unit := do
  let inst ← addMySQLPre name dsn distro version
  if start = false then pure ()
  else addMySQLMonitor name source inst

/-- Embeds `Admin.RemoveMySQL` (catalog variant): error when Consul is not
monitoring `mysql-hr` for the node; deregister the three mysql services;
stop the three exporters; then look the instance up among the agent's
mysql instances and, when found, StopTool it. -/
def RemoveMySQL (name : String) : AdminM Unit := do
  let ok ← serviceExists name "mysql-hr"
  if ok = false then throwE (.msgE "PMM is not monitoring this MySQL instance")
  else do
  deregister name "mysql-hr"
  deregister name "mysql-mr"
  deregister name "mysql-lr"
  PMM.stopMySQLExporters
  let instances ← PMM.localAgentInstances
  match instances.mysql.find? (fun i2 => i2.Name == name) with
  | none => pure ()
  | some inst => do
    let agentId ← PMM.localAgentId
    PMM.stopQAN agentId inst

/-- Embeds `Admin.AddMongoDB` (catalog variant): precondition ClientAddress
set; nothing to do unless `start`.  The error returned by
`localAgentInstances` is never checked (on failure the nil map yields an
empty `"os"` slice) and `instances["os"][0]` is taken without any length
check: zero OS instances panic, several silently use the first.  Then
refuse when Consul already has a `mongodb` service for the node, start
mongodb_exporter and register the `mongodb` service. -/
def AddMongoDB (name : String) (start : Bool) (uri replset cluster : String) : AdminM Unit := do
  let cfg ← getCfg
  if cfg.ClientAddress = "" then throwE .errNoOS
  else do
  if start = false then pure ()
  else do
  let instancesOpt ← attempt PMM.localAgentInstances
  let instances := instancesOpt.getD {}
  match instances.os with
  | [] => panicE indexOutOfRange
  | os1 :: _ => do
    let ok ← serviceExists os1.Name "mongodb"
    if ok then throwE (.msgE "PMM is already monitoring this MongoDB instance")
    else do
    let args := ["-web.listen-address=" ++ cfg.ClientAddress ++ ":9107"] ++
                (if uri ≠ "" then ["-mongodb.uri=" ++ uri] else [])
    PMM.startExporter
      { Name := "mongodb_exporter", Alias := "MongoDB metrics", Port := "9107", Args := args }
    let tags := (if replset ≠ "" then ["replset_" ++ replset] else []) ++
                (if cluster ≠ "" then ["cluster_" ++ cluster] else [])
    register { Node := os1.Name, Address := cfg.ClientAddress,
               ServiceName := "mongodb", ServicePort := 9107, Tags := tags }

/-- Embeds `Admin.RemoveMongoDB` (catalog variant): error when Consul is not
monitoring `mongodb` for the node; deregister it; stop
mongodb_exporter. -/
def RemoveMongoDB (name : String) : AdminM Unit := do
  let ok ← serviceExists name "mongodb"
  if ok = false then throwE (.msgE "PMM is not monitoring this MongoDB instance")
  else do
  deregister name "mongodb"
  PMM.stopExporter "mongodb_exporter" "9107"

end Consul

/-- Is the event a state-changing request (anything but GET)? -/
def isMutation (e : Event) : Bool :=
  match e.method with
  | .get => false
  | _ => true

def isPostEv (e : Event) : Bool :=
  match e.method with
  | .post => true
  | _ => false

def isDeleteEv (e : Event) : Bool :=
  match e.method with
  | .delete => true
  | _ => false

/-- Is the event a Consul catalog register/deregister call?  (These are
the only requests carrying a `ConsulNode` body.) -/
def isConsulReq (e : Event) : Bool :=
  match e.reqBody with
  | .consulBody _ => true
  | _ => false

/-- Is the event a host-list registry registration (a POST carrying a
`proto.Host` body)? -/
def isHostPost (e : Event) : Bool :=
  isPostEv e && (match e.reqBody with | .hostBody _ => true | _ => false)

/-- Is the event the start of an exporter listening on port `p`? -/
def isExpStart (p : String) (e : Event) : Bool :=
  isPostEv e && (match e.reqBody with | .exporterBody ex => ex.Port == p | _ => false)

/-- Every registry event of the trace comes after starts of all three
mysql exporters: either the trace has no registry event at all, or it
splits into a registry-free prefix containing exporter starts for ports
9104, 9105 and 9106, followed by the rest. -/
def RegAfterExporters (isReg : Event → Bool) (t : List Event) : Prop :=
  (∀ e ∈ t, isReg e = false) ∨
  ∃ t1 t2, t = t1 ++ t2 ∧ (∀ e ∈ t1, isReg e = false) ∧
    (∀ p ∈ (["9104", "9105", "9106"] : List String), ∃ e ∈ t1, isExpStart p e = true)

/-- Registry deregistration precedes every exporter stop: either no stop
(DELETE) occurs, or the trace splits into a DELETE-free prefix containing
a catalog call, followed only by DELETEs. -/
def DeregBeforeStops (t : List Event) : Prop :=
  (∀ e ∈ t, isDeleteEv e = false) ∨
  ∃ t1 t2, t = t1 ++ t2 ∧ (∀ e ∈ t1, isDeleteEv e = false) ∧
    (∃ e ∈ t1, isConsulReq e = true) ∧ (∀ e ∈ t2, isDeleteEv e = true)

/-- The run of `m`, from any state, only appends events satisfying `P`
to the trace. -/
def AppendsOnly (P : Event → Prop) {α : Type} (m : AdminM α) : Prop :=
  ∀ w s, ∃ L, (m w s).2.trace = s.trace ++ L ∧ ∀ e ∈ L, P e

/-- The process manager's start URL (`POST /`). -/
def startURL : String := apiURL ("localhost:" ++ DEFAULT_METRICS_API_PORT) []

/-- The process manager's stop URL (`DELETE /{name}/{port}`). -/
def stopURL (name port : String) : String :=
  apiURL ("localhost:" ++ DEFAULT_METRICS_API_PORT) [name, port]

/-- A client configuration with OS already added. -/
def cfgStd : Config :=
  { ClientAddress := "192.0.2.1", ClientUUID := "uuid-os-1", ServerAddress := "203.0.113.5" }

/-- A client configuration before any `Add(os)`. -/
def cfgEmpty : Config := { ServerAddress := "203.0.113.5" }

/-- A local agent OS instance. -/
def osA : Instance := { Subsystem := "os", UUID := "os-uuid-a", Name := "host-a" }

/-- A second local agent OS instance (for multi-OS worlds). -/
def osB : Instance := { Subsystem := "os", UUID := "os-uuid-b", Name := "host-b" }

/-- World for C1: the agent reports two OS instances; Consul does not
know the node; exporter start and catalog registration succeed. -/
def c1World : World := worldOf [
  some { status := 200, body := .instancesVal { os := [osA, osB] } },
  some { status := 200, body := .consulVal (some []) },
  some { status := 201 },
  some { status := 200 } ]

/-- World for the C2 counterexample: first exporter POST gets Conflict,
the stop DELETE then fails with 500. -/
def c2cexWorld : World := worldOf [
  some { status := 409 },
  some { status := 500 } ]

/-- World for the C4 counterexample (earliest variant): Prom host POST
created, one OS instance, then the QAN instance POST gets Conflict. -/
def c4cexWorld : World := worldOf [
  some { status := 201 },
  some { status := 200, body := .instancesVal { os := [osA] } },
  some { status := 409, location := "http://203.0.113.5:9001/instances/abc123" } ]

/-- World for the C4 theorem (catalog variant): one OS instance; the QAN
instance POST gets Conflict with Location `loc`; fetching `loc` returns
`inst`; everything afterwards succeeds. -/
def c4World (os1 : Instance) (loc : String) (inst : Instance) : World := worldOf [
  some { status := 200, body := .instancesVal { os := [os1] } },
  some { status := 409, location := loc },
  some { status := 200, body := .instanceVal inst },
  some { status := 201 },
  some { status := 201 },
  some { status := 201 },
  some { status := 200, body := .consulVal (some []) },
  some { status := 200 },
  some { status := 200 },
  some { status := 200 },
  some { status := 200, body := .raw "agent-1" },
  some { status := 200 },
  some { status := 200 } ]

/-- World for the C4 theorem, host-list half: one OS instance; the QAN
instance POST gets Conflict with Location `loc`; fetching `loc` returns
`inst`; the three exporter starts, the registry host POST, the agent id
fetch and both QAN commands succeed. -/
def c4hlWorld (os1 : Instance) (loc : String) (inst : Instance) : World := worldOf [
  some { status := 200, body := .instancesVal { os := [os1] } },
  some { status := 409, location := loc },
  some { status := 200, body := .instanceVal inst },
  some { status := 201 },
  some { status := 201 },
  some { status := 201 },
  some { status := 201 },
  some { status := 200, body := .raw "agent-1" },
  some { status := 200 },
  some { status := 200 } ]

/-- World for the C5 counterexample (catalog variant `AddOS`): one OS
instance, and Consul already has a `linux` service for the node (under
the very same address the caller is re-adding). -/
def c5cexWorld : World := worldOf [
  some { status := 200, body := .instancesVal { os := [osA] } },
  some { status := 200, body := .consulVal (some [{ name := "linux" }]) } ]

/-- World for the C5 theorem, `AddOS` part (host-list variant): one OS
instance; exporter start created; the host POST gets Conflict; the
registry's existing entry has the same alias and the same address. -/
def c5aWorld (os1 : Instance) (addr : String) : World := worldOf [
  some { status := 200, body := .instancesVal { os := [os1] } },
  some { status := 201 },
  some { status := 409 },
  some { status := 200, body := .hostsVal { os := [{ Address := addr, Alias := os1.Name }] } } ]

/-- World for the C5 theorem, `AddMySQL` part (host-list variant): the
QAN instance resource is created; exporters start; the registry host
POST gets Conflict and the existing entry carries the caller's address
(`cfgStd`'s client address). -/
def c5bWorld (os1 inst : Instance) (loc sqlName : String) : World := worldOf [
  some { status := 200, body := .instancesVal { os := [os1] } },
  some { status := 201, location := loc },
  some { status := 200, body := .instanceVal inst },
  some { status := 201 },
  some { status := 201 },
  some { status := 201 },
  some { status := 409 },
  some { status := 200, body := .hostsVal { mysql := [{ Address := "192.0.2.1", Alias := sqlName }] } },
  some { status := 200, body := .raw "agent-1" },
  some { status := 200 },
  some { status := 200 } ]

/-- World for the C6 theorem, `AddOS` part: like `c5aWorld` but the
registry's existing entry carries a different address. -/
def c6aWorld (os1 : Instance) : World := worldOf [
  some { status := 200, body := .instancesVal { os := [os1] } },
  some { status := 201 },
  some { status := 409 },
  some { status := 200, body := .hostsVal { os := [{ Address := "198.51.100.9", Alias := os1.Name }] } } ]

/-- World for the C6 theorem, `AddMySQL` part: like `c5bWorld` but the
registry's existing entry carries a different address. -/
def c6bWorld (os1 inst : Instance) (loc sqlName : String) : World := worldOf [
  some { status := 200, body := .instancesVal { os := [os1] } },
  some { status := 201, location := loc },
  some { status := 200, body := .instanceVal inst },
  some { status := 201 },
  some { status := 201 },
  some { status := 201 },
  some { status := 409 },
  some { status := 200, body := .hostsVal { mysql := [{ Address := "198.51.100.9", Alias := sqlName }] } } ]

/-- A QAN mysql instance resource. -/
def instA : Instance :=
  { Subsystem := "mysql", ParentUUID := "os-uuid-a", UUID := "mysql-uuid-1", Name := "db1" }

/-- World for the C6 counterexample (catalog variant `AddMySQL`): the
instance resource is created, exporters start, and Consul already has a
`mysql-hr` service for the node (registered under a different address,
which the code never even fetches). -/
def c6cexWorld : World := worldOf [
  some { status := 200, body := .instancesVal { os := [osA] } },
  some { status := 201, location := "http://203.0.113.5:9001/instances/mysql-uuid-1" },
  some { status := 200, body := .instanceVal instA },
  some { status := 201 },
  some { status := 201 },
  some { status := 201 },
  some { status := 200, body := .consulVal (some [{ name := "mysql-hr" }]) } ]

/-- World for the C3 counterexample (catalog variant `RemoveOS`): Consul
does not know the node. -/
def c3cexWorld : World := worldOf [
  some { status := 200, body := .consulVal none } ]

/-- World for C9: the registry knows an os host and a mysql host at the
client address `cA`; the agent runs the given configs and knows the
given mysql instances (and no os instance). -/
def c9World (cA osAlias sqlAlias : String) (ms : List Instance) (configs : List AgentConfig) :
    World := worldOf [
  some { status := 200, body := .hostsVal { os := [{ Address := cA, Alias := osAlias }],
                                            mysql := [{ Address := cA, Alias := sqlAlias }] } },
  some { status := 200, body := .configsVal configs },
  some { status := 200, body := .instancesVal { os := [], mysql := ms } } ]

/-- World for C10: the registry knows a mysql host at the client address
but no os host at all; the agent runs no configs. -/
def c10World (cA al : String) : World := worldOf [
  some { status := 200, body := .hostsVal { os := [], mysql := [{ Address := cA, Alias := al }] } },
  some { status := 200, body := .configsVal [] },
  some { status := 200, body := .instancesVal {} } ]

theorem run_bind {α β : Type} (m : AdminM α) (f : α → AdminM β) (w : World) (s : St) :
    (m >>= f) w s = match m w s with
      | (.ok a, s1) => f a w s1
      | (.err e, s1) => (.err e, s1)
      | (.panicked p, s1) => (.panicked p, s1) := rfl

theorem run_pure {α : Type} (a : α) (w : World) (s : St) :
    (pure a : AdminM α) w s = (.ok a, s) := rfl

theorem run_request (m : Method) (url : String) (b : ReqBody) (w : World) (s : St) :
    request m url b w s =
      (.ok (w s.idx), { s with idx := s.idx + 1, trace := s.trace ++ [⟨m, url, b⟩] }) := rfl

/-- Claim C2 (amended): for every `startExporter` call, a first POST
answered Created is success with no stop and no retry.  A first POST
answered Conflict is followed by exactly one stop attempt (a DELETE of
the exporter's (name, port)); if the stop attempt fails — transport
error or a status other than OK/NotFound — that failure is returned as
an error and no retried POST occurs; if the stop attempt succeeds,
exactly one retried POST follows and the run issues exactly three
requests in total (no further attempts): Created on the retry is
success, anything else is returned as an error. -/
theorem C2_exporter_retry_protocol (w : World) (cfg : Config) (exp : Exporter) (r : Resp)
    (h0 : w 0 = some r) :
    (r.status = 201 →
      resultOf (PMM.startExporter exp) w cfg = .ok () ∧
      traceOf (PMM.startExporter exp) w cfg = [⟨.post, startURL, .exporterBody exp⟩]) ∧
    (r.status = 409 →
      (traceOf (PMM.startExporter exp) w cfg).take 2 =
        [⟨.post, startURL, .exporterBody exp⟩,
         ⟨.delete, stopURL exp.Name exp.Port, .empty⟩] ∧
      (traceOf (PMM.startExporter exp) w cfg).countP isDeleteEv = 1 ∧
      (w 1 = none →
        resultOf (PMM.startExporter exp) w cfg =
          .err (.transportE (stopURL exp.Name exp.Port)) ∧
        (traceOf (PMM.startExporter exp) w cfg).countP isPostEv = 1) ∧
      (∀ r2, w 1 = some r2 → r2.status ≠ 200 → r2.status ≠ 404 →
        resultOf (PMM.startExporter exp) w cfg =
          .err (.apiE "DELETE" (stopURL exp.Name exp.Port) r2.status 200) ∧
        (traceOf (PMM.startExporter exp) w cfg).countP isPostEv = 1) ∧
      (∀ r2, w 1 = some r2 → r2.status = 200 ∨ r2.status = 404 →
        (traceOf (PMM.startExporter exp) w cfg).countP isPostEv = 2 ∧
        (traceOf (PMM.startExporter exp) w cfg).length = 3 ∧
        (w 2 = none →
          resultOf (PMM.startExporter exp) w cfg = .err (.transportE startURL)) ∧
        (∀ r3, w 2 = some r3 →
          (r3.status = 201 → resultOf (PMM.startExporter exp) w cfg = .ok ()) ∧
          (r3.status ≠ 201 →
            resultOf (PMM.startExporter exp) w cfg =
              .err (.apiE "(2) POST" startURL r3.status 201))))) := by
  constructor
  · intro h201
    simp [resultOf, traceOf, runM, PMM.startExporter, PMM.stopExporter, run_bind, run_pure,
      run_request, httpPost, httpDelete, throwE, h0, h201, startURL]
  · intro h409
    rcases hw1 : w 1 with _ | r2
    · refine ⟨?_, ?_, ?_, ?_, ?_⟩
      · simp [resultOf, traceOf, runM, PMM.startExporter, PMM.stopExporter, run_bind, run_pure,
          run_request, httpPost, httpDelete, throwE, h0, h409, hw1, startURL, stopURL]
      · simp [resultOf, traceOf, runM, PMM.startExporter, PMM.stopExporter, run_bind, run_pure,
          run_request, httpPost, httpDelete, throwE, h0, h409, hw1, startURL, stopURL,
          isDeleteEv, List.countP, List.countP.go]
      · intro _
        simp [resultOf, traceOf, runM, PMM.startExporter, PMM.stopExporter, run_bind, run_pure,
          run_request, httpPost, httpDelete, throwE, h0, h409, hw1, startURL, stopURL,
          isPostEv, List.countP, List.countP.go]
      · intro r2 h
        exact Option.noConfusion h
      · intro r2 h
        exact Option.noConfusion h
    · by_cases hok : r2.status = 200 ∨ r2.status = 404
      · rcases hw2 : w 2 with _ | r3
        · refine ⟨?_, ?_, ?_, ?_, ?_⟩
          · rcases hok with h2 | h2 <;>
              simp [resultOf, traceOf, runM, PMM.startExporter, PMM.stopExporter, run_bind,
                run_pure, run_request, httpPost, httpDelete, throwE, h0, h409, hw1, hw2, h2,
                startURL, stopURL]
          · rcases hok with h2 | h2 <;>
              simp [resultOf, traceOf, runM, PMM.startExporter, PMM.stopExporter, run_bind,
                run_pure, run_request, httpPost, httpDelete, throwE, h0, h409, hw1, hw2, h2,
                startURL, stopURL, isDeleteEv, List.countP, List.countP.go]
          · intro h
            exact Option.noConfusion h
          · intro r2' h hne1 hne2
            injection h with hinj
            subst hinj
            rcases hok with h2 | h2
            · exact absurd h2 hne1
            · exact absurd h2 hne2
          · intro r2' h _
            injection h with hinj
            subst hinj
            rcases hok with h2 | h2 <;>
              refine ⟨?_, ?_, ?_, ?_⟩ <;>
                first
                | (simp [resultOf, traceOf, runM, PMM.startExporter, PMM.stopExporter, run_bind,
                     run_pure, run_request, httpPost, httpDelete, throwE, h0, h409, hw1, hw2, h2,
                     startURL, stopURL, isPostEv, List.countP, List.countP.go])
                | (intro r3 h3; exact Option.noConfusion h3)
        · refine ⟨?_, ?_, ?_, ?_, ?_⟩
          · rcases hok with h2 | h2 <;> by_cases hr3 : r3.status = 201 <;>
              simp [resultOf, traceOf, runM, PMM.startExporter, PMM.stopExporter, run_bind,
                run_pure, run_request, httpPost, httpDelete, throwE, h0, h409, hw1, hw2, h2,
                hr3, startURL, stopURL]
          · rcases hok with h2 | h2 <;> by_cases hr3 : r3.status = 201 <;>
              simp [resultOf, traceOf, runM, PMM.startExporter, PMM.stopExporter, run_bind,
                run_pure, run_request, httpPost, httpDelete, throwE, h0, h409, hw1, hw2, h2,
                hr3, startURL, stopURL, isDeleteEv, List.countP, List.countP.go]
          · intro h
            exact Option.noConfusion h
          · intro r2' h hne1 hne2
            injection h with hinj
            subst hinj
            rcases hok with h2 | h2
            · exact absurd h2 hne1
            · exact absurd h2 hne2
          · intro r2' h _
            injection h with hinj
            subst hinj
            refine ⟨?_, ?_, ?_, ?_⟩
            · rcases hok with h2 | h2 <;> by_cases hr3 : r3.status = 201 <;>
                simp [resultOf, traceOf, runM, PMM.startExporter, PMM.stopExporter, run_bind,
                  run_pure, run_request, httpPost, httpDelete, throwE, h0, h409, hw1, hw2, h2,
                  hr3, startURL, stopURL, isPostEv, List.countP, List.countP.go]
            · rcases hok with h2 | h2 <;> by_cases hr3 : r3.status = 201 <;>
                simp [resultOf, traceOf, runM, PMM.startExporter, PMM.stopExporter, run_bind,
                  run_pure, run_request, httpPost, httpDelete, throwE, h0, h409, hw1, hw2, h2,
                  hr3, startURL, stopURL]
            · intro h
              exact Option.noConfusion h
            · intro r3' h3
              injection h3 with hinj3
              subst hinj3
              constructor
              · intro hs
                rcases hok with h2 | h2 <;>
                  simp [resultOf, traceOf, runM, PMM.startExporter, PMM.stopExporter, run_bind,
                    run_pure, run_request, httpPost, httpDelete, throwE, h0, h409, hw1, hw2, h2,
                    hs, startURL, stopURL]
              · intro hs
                rcases hok with h2 | h2 <;>
                  simp [resultOf, traceOf, runM, PMM.startExporter, PMM.stopExporter, run_bind,
                    run_pure, run_request, httpPost, httpDelete, throwE, h0, h409, hw1, hw2, h2,
                    hs, startURL, stopURL]
      · push_neg at hok
        refine ⟨?_, ?_, ?_, ?_, ?_⟩
        · simp [resultOf, traceOf, runM, PMM.startExporter, PMM.stopExporter, run_bind, run_pure,
            run_request, httpPost, httpDelete, throwE, h0, h409, hw1, hok.1, hok.2,
            startURL, stopURL]
        · simp [resultOf, traceOf, runM, PMM.startExporter, PMM.stopExporter, run_bind, run_pure,
            run_request, httpPost, httpDelete, throwE, h0, h409, hw1, hok.1, hok.2,
            startURL, stopURL, isDeleteEv, List.countP, List.countP.go]
        · intro h
          exact Option.noConfusion h
        · intro r2' h _ _
          injection h with hinj
          subst hinj
          simp [resultOf, traceOf, runM, PMM.startExporter, PMM.stopExporter, run_bind, run_pure,
            run_request, httpPost, httpDelete, throwE, h0, h409, hw1, hok.1, hok.2,
            startURL, stopURL, isPostEv, List.countP, List.countP.go]
        · intro r2' h hor
          injection h with hinj
          subst hinj
          rcases hor with h2 | h2
          · exact absurd h2 hok.1
          · exact absurd h2 hok.2

/-- Claim C2 counterexample: with the first POST answered Conflict and
the stop DELETE answered 500, the operation returns the stop's error and
the trace contains a single POST — no retried POST ever happens, so "the
operation performs exactly one stop … followed by exactly one retried
POST" is false as stated. -/
theorem C2_counterexample :
    c2cexWorld 0 = some { status := 409 } ∧
    resultOf (PMM.startExporter { Name := "node_exporter", Port := "9100" }) c2cexWorld cfgStd =
      .err (.apiE "DELETE" (stopURL "node_exporter" "9100") 500 200) ∧
    (traceOf (PMM.startExporter { Name := "node_exporter", Port := "9100" })
        c2cexWorld cfgStd).countP isPostEv = 1 := by
  refine ⟨rfl, rfl, rfl⟩

/-- Witness for C2: a concrete Conflict-then-stop-OK-then-Created run
performs exactly two POSTs and succeeds. -/
theorem C2_witness :
    (worldOf [some ⟨409, "", .empty⟩, some ⟨200, "", .empty⟩, some ⟨201, "", .empty⟩]) 0 =
      some ⟨409, "", .empty⟩ ∧
    (traceOf (PMM.startExporter { Name := "mysqld_exporter", Port := "9104" })
        (worldOf [some ⟨409, "", .empty⟩, some ⟨200, "", .empty⟩, some ⟨201, "", .empty⟩])
        cfgStd).countP isPostEv = 2 ∧
    resultOf (PMM.startExporter { Name := "mysqld_exporter", Port := "9104" })
        (worldOf [some ⟨409, "", .empty⟩, some ⟨200, "", .empty⟩, some ⟨201, "", .empty⟩])
        cfgStd = .ok () := by
  refine ⟨rfl, ?_, ?_⟩
  · have h := (C2_exporter_retry_protocol
      (worldOf [some ⟨409, "", .empty⟩, some ⟨200, "", .empty⟩, some ⟨201, "", .empty⟩])
      cfgStd { Name := "mysqld_exporter", Port := "9104" } ⟨409, "", .empty⟩ rfl).2 rfl
    exact (h.2.2.2.2 ⟨200, "", .empty⟩ rfl (Or.inl rfl)).1
  · have h := (C2_exporter_retry_protocol
      (worldOf [some ⟨409, "", .empty⟩, some ⟨200, "", .empty⟩, some ⟨201, "", .empty⟩])
      cfgStd { Name := "mysqld_exporter", Port := "9104" } ⟨409, "", .empty⟩ rfl).2 rfl
    exact ((h.2.2.2.2 ⟨200, "", .empty⟩ rfl (Or.inl rfl)).2.2.2 ⟨201, "", .empty⟩ rfl).1 rfl

/-- Claim C1, the code evaluated at the failing input: the
catalog-variant `AddMongoDB`, invoked while the local agent reports TWO
OS instances, does not fail before remote mutations — it silently uses
the first OS instance, starts mongodb_exporter, registers the service in
Consul and returns success (two mutating requests).  By contrast the
catalog-variant `AddMySQL` does enforce the single-OS invariant: at the
same agent reply it fails with no mutating request issued. -/
theorem C1_addMongoDB_skips_single_os_check :
    (resultOf (Consul.AddMongoDB "m" true "" "" "") c1World cfgStd = .ok () ∧
     (traceOf (Consul.AddMongoDB "m" true "" "" "") c1World cfgStd).countP isMutation = 2) ∧
    (resultOf (Consul.AddMySQL "db1" "dsn1" "auto" true "" "")
        (worldOf [some { status := 200, body := .instancesVal { os := [osA, osB] } }]) cfgStd =
      .err (.msgE "agent reported more than 1 OS instance") ∧
     (traceOf (Consul.AddMySQL "db1" "dsn1" "auto" true "" "")
        (worldOf [some { status := 200, body := .instancesVal { os := [osA, osB] } }])
        cfgStd).countP isMutation = 0) := by
  refine ⟨⟨rfl, rfl⟩, ⟨rfl, rfl⟩⟩

/-- Claim C3 counterexample: the catalog-variant `RemoveOS`, invoked for
an instance Consul does not know, returns an error instead of
succeeding as a no-op. -/
theorem C3_counterexample :
    resultOf (Consul.RemoveOS "node-1") c3cexWorld cfgStd =
      .err (.msgE "PMM is not monitoring this OS instance") := rfl

/-- Claim C3 (amended): in the host-list variant, Remove for an
unregistered instance succeeds as a warning-only no-op — the registry
DELETE answers NotFound, the exporter stops answer OK or NotFound, and
(for mysql) the agent knows no matching instance; all three Remove
operations return no error. -/
theorem C3_hostlist_remove_absent_noop :
    (∀ (nm : String) (r1 r2 : Resp), r1.status = 404 → r2.status = 200 ∨ r2.status = 404 →
       resultOf (HL.RemoveOS nm) (worldOf [some r1, some r2]) cfgStd = .ok ()) ∧
    (∀ (nm : String) (r1 r2 r3 r4 : Resp) (m : AgentInstances),
       r1.status = 404 →
       r2.status = 200 ∨ r2.status = 404 →
       r3.status = 200 ∨ r3.status = 404 →
       r4.status = 200 ∨ r4.status = 404 →
       m.mysql.find? (fun i2 => i2.Name == nm) = none →
       resultOf (HL.RemoveMySQL nm)
         (worldOf [some r1, some r2, some r3, some r4,
                   some { status := 200, body := .instancesVal m }]) cfgStd = .ok ()) ∧
    (∀ (nm : String) (r1 r2 : Resp), r1.status = 404 → r2.status = 200 ∨ r2.status = 404 →
       resultOf (HL.RemoveMongoDB nm) (worldOf [some r1, some r2]) cfgStd = .ok ()) := by
  refine ⟨?_, ?_, ?_⟩
  · intro nm r1 r2 h1 h2
    rcases h2 with h2 | h2 <;>
      simp [resultOf, runM, HL.RemoveOS, PMM.stopExporter, run_bind, run_pure, run_request,
        httpDelete, throwE, getCfg, worldOf, List.getD, h1, h2]
  · intro nm r1 r2 r3 r4 m h1 h2 h3 h4 hfind
    rcases h2 with h2 | h2 <;> rcases h3 with h3 | h3 <;> rcases h4 with h4 | h4 <;>
      simp [resultOf, runM, HL.RemoveMySQL, PMM.stopMySQLExporters, PMM.stopExporter,
        PMM.localAgentInstances, run_bind, run_pure, run_request, httpDelete, httpGet, throwE,
        panicE, getCfg, worldOf, List.getD, decodeInstances, h1, h2, h3, h4, hfind]
  · intro nm r1 r2 h1 h2
    rcases h2 with h2 | h2 <;>
      simp [resultOf, runM, HL.RemoveMongoDB, PMM.stopExporter, run_bind, run_pure, run_request,
        httpDelete, throwE, getCfg, worldOf, List.getD, h1, h2]

/-- Witness for C3: concrete not-registered removals of an os, a mysql
and a mongodb instance all succeed. -/
theorem C3_witness :
    resultOf (HL.RemoveOS "n1") (worldOf [some ⟨404, "", .empty⟩, some ⟨404, "", .empty⟩])
      cfgStd = .ok () ∧
    resultOf (HL.RemoveMySQL "db1")
      (worldOf [some ⟨404, "", .empty⟩, some ⟨404, "", .empty⟩, some ⟨404, "", .empty⟩,
                some ⟨404, "", .empty⟩, some { status := 200, body := .instancesVal {} }])
      cfgStd = .ok () ∧
    resultOf (HL.RemoveMongoDB "mg1")
      (worldOf [some ⟨404, "", .empty⟩, some ⟨404, "", .empty⟩]) cfgStd = .ok () := by
  refine ⟨?_, ?_, ?_⟩
  · exact C3_hostlist_remove_absent_noop.1 "n1" ⟨404, "", .empty⟩ ⟨404, "", .empty⟩ rfl (Or.inr rfl)
  · exact C3_hostlist_remove_absent_noop.2.1 "db1" ⟨404, "", .empty⟩ ⟨404, "", .empty⟩
      ⟨404, "", .empty⟩ ⟨404, "", .empty⟩ {} rfl (Or.inr rfl) (Or.inr rfl) (Or.inr rfl) rfl
  · exact C3_hostlist_remove_absent_noop.2.2 "mg1" ⟨404, "", .empty⟩ ⟨404, "", .empty⟩ rfl
      (Or.inr rfl)

/-- Claim C4 counterexample: the earliest variant's `AddMySQL`, whose
POST of the instance descriptor is answered Conflict, returns that
status as an error — it does not follow the Location reference (the
trace ends at the POST) — and the POSTed descriptor already carries a
client-minted UUID. -/
theorem C4_counterexample :
    resultOf (V0.AddMySQL "u-minted" "db1" "dsn1" "auto" "d" "v") c4cexWorld cfgStd =
      .err (.statusE (apiURL ("203.0.113.5" ++ ":" ++ QAN_API_PORT) ["/instances"]) 409 201) ∧
    (traceOf (V0.AddMySQL "u-minted" "db1" "dsn1" "auto" "d" "v") c4cexWorld cfgStd).length = 3 ∧
    (traceOf (V0.AddMySQL "u-minted" "db1" "dsn1" "auto" "d" "v") c4cexWorld cfgStd).getLast? =
      some ⟨.post, apiURL ("203.0.113.5" ++ ":" ++ QAN_API_PORT) ["/instances"],
        .instanceBody { Subsystem := "mysql", ParentUUID := "os-uuid-a", UUID := "u-minted",
                        Name := "db1", DSN := "dsn1", Distro := "d", Version := "v" }⟩ := by
  refine ⟨rfl, rfl, rfl⟩

/-- Claim C5 counterexample: the catalog-variant `AddOS`, re-adding an
OS instance Consul is already monitoring (under the very address being
re-added), fails with an "already monitoring" error instead of
succeeding idempotently. -/
theorem C5_counterexample :
    resultOf (Consul.AddOS "192.0.2.1" true "" "") c5cexWorld cfgEmpty =
      .err (.msgE "PMM is already monitoring this OS instance") := rfl

/-- Claim C6 counterexample: the catalog-variant `AddMySQL`, adding a
name Consul already has a `mysql-hr` service for (no matter under which
address — the code never fetches it), fails with a generic "already
monitoring" message, not with the distinct `ErrHostConflict`. -/
theorem C6_counterexample :
    resultOf (Consul.AddMySQL "db1" "dsn1" "auto" true "" "") c6cexWorld cfgStd =
      .err (.msgE "PMM is already monitoring this MySQL instance") ∧
    GoError.msgE "PMM is already monitoring this MySQL instance" ≠ GoError.errHostConflict ∧
    cfgAfter (Consul.AddMySQL "db1" "dsn1" "auto" true "" "") c6cexWorld cfgStd = cfgStd := by
  refine ⟨rfl, by decide, rfl⟩

/-- Claim C8, the code evaluated at the failing input: the host-list
`RemoveMySQL` never checks the error returned by the DELETE of the
registry host; on a transport error it dereferences the nil response and
panics instead of returning the error. -/
theorem C8_removeMySQL_ignores_transport_error :
    resultOf (HL.RemoveMySQL "db1") (worldOf []) cfgStd = .panicked nilDeref ∧
    traceOf (HL.RemoveMySQL "db1") (worldOf []) cfgStd =
      [⟨.delete, apiURL ("203.0.113.5" ++ ":" ++ DEFAULT_PROM_CONFIG_API_PORT)
          ["hosts", "mysql", "db1"], .empty⟩] := by
  refine ⟨rfl, rfl⟩

set_option maxHeartbeats 1600000 in
/-- Claim C4 (amended): in both the catalog variant and the host-list
variant, an `AddMySQL` whose POST of the instance descriptor is answered
Conflict follows the reply's Location reference (the third request is a
GET of exactly that URL), adopts the fetched resource's UUID for every
subsequent step — every exporter body carries it as InstanceUUID and
every QAN command carries it — and never mints its own identifier (the
POSTed descriptor's UUID field is the zero value).  The first three
conjuncts settle the catalog variant, the last three the host-list
variant. -/
theorem C4_conflict_adopts_existing_uuid (name dsn source distro version loc : String)
    (os1 inst : Instance) :
    (resultOf (Consul.AddMySQL name dsn source true distro version)
      (c4World os1 loc inst) cfgStd = .ok () ∧
    (traceOf (Consul.AddMySQL name dsn source true distro version)
      (c4World os1 loc inst) cfgStd).get? 2 = some ⟨.get, loc, .empty⟩ ∧
    (∀ e ∈ traceOf (Consul.AddMySQL name dsn source true distro version)
        (c4World os1 loc inst) cfgStd,
      (∀ ex, e.reqBody = .exporterBody ex → ex.InstanceUUID = inst.UUID) ∧
      (∀ v u2 c2, e.reqBody = .cmdBody v u2 c2 → u2 = inst.UUID) ∧
      (∀ j, e.reqBody = .instanceBody j → j.UUID = ""))) ∧
    (resultOf (HL.AddMySQL name dsn source true distro version)
      (c4hlWorld os1 loc inst) cfgStd = .ok () ∧
    (traceOf (HL.AddMySQL name dsn source true distro version)
      (c4hlWorld os1 loc inst) cfgStd).get? 2 = some ⟨.get, loc, .empty⟩ ∧
    (∀ e ∈ traceOf (HL.AddMySQL name dsn source true distro version)
        (c4hlWorld os1 loc inst) cfgStd,
      (∀ ex, e.reqBody = .exporterBody ex → ex.InstanceUUID = inst.UUID) ∧
      (∀ v u2 c2, e.reqBody = .cmdBody v u2 c2 → u2 = inst.UUID) ∧
      (∀ j, e.reqBody = .instanceBody j → j.UUID = ""))) := by
  refine ⟨⟨?_, ?_, ?_⟩, ⟨?_, ?_, ?_⟩⟩ <;>
    simp [resultOf, traceOf, runM, Consul.AddMySQL, Consul.addMySQLPre, Consul.addMySQLMonitor,
      Consul.addMySQLRegister, HL.AddMySQL, HL.startMySQLExporters, HL.getHost,
      Consul.startMySQLExporters, Consul.serviceExists, Consul.register, PMM.localAgentInstances,
      PMM.localAgentId, PMM.startExporter, PMM.stopExporter, PMM.startQAN, PMM.stopQAN,
      discardErr, run_bind, run_pure, run_request, httpGet, httpPost, httpPut, httpDelete,
      throwE, getCfg, worldOf, c4World, c4hlWorld, cfgStd, List.getD, decodeInstances,
      decodeInstance, decodeHosts, decodeConsul, bodyText]

/-- Claim C5 (amended): in the host-list variant, a second Add of an
instance already registered under the caller's own address succeeds
without error and issues exactly one registry host POST (the Conflict
answer plus the matching-address check take the success path, no second
competing entry is created): `AddOS` still records address and OS UUID
in the local config, and `AddMySQL` completes its whole flow. -/
theorem C5_hostlist_same_address_idempotent
    (addr sqlName loc dsn source distro version : String) (os1 inst : Instance) :
    (resultOf (HL.AddOS addr true) (c5aWorld os1 addr) cfgEmpty = .ok () ∧
     cfgAfter (HL.AddOS addr true) (c5aWorld os1 addr) cfgEmpty =
       { cfgEmpty with ClientAddress := addr, ClientUUID := os1.UUID } ∧
     (traceOf (HL.AddOS addr true) (c5aWorld os1 addr) cfgEmpty).countP isHostPost = 1) ∧
    (resultOf (HL.AddMySQL sqlName dsn source true distro version)
        (c5bWorld os1 inst loc sqlName) cfgStd = .ok () ∧
     (traceOf (HL.AddMySQL sqlName dsn source true distro version)
        (c5bWorld os1 inst loc sqlName) cfgStd).countP isHostPost = 1) := by
  refine ⟨⟨?_, ?_, ?_⟩, ⟨?_, ?_⟩⟩ <;>
    simp [resultOf, traceOf, cfgAfter, runM, HL.AddOS, HL.AddMySQL, HL.getHost,
      HL.startMySQLExporters, PMM.localAgentInstances, PMM.localAgentId, PMM.startExporter,
      PMM.stopExporter, PMM.startQAN, PMM.stopQAN, discardErr, run_bind, run_pure, run_request,
      httpGet, httpPost, httpPut, httpDelete, throwE, getCfg, putCfg, worldOf, c5aWorld,
      c5bWorld, cfgStd, cfgEmpty, List.getD, decodeInstances, decodeInstance, decodeHosts,
      HostsMap.lookup, bodyText, isHostPost, isPostEv, List.countP, List.countP.go]

/-- Claim C6 (amended): in the host-list variant, an Add whose name is
already registered under a different address returns the distinct
`ErrHostConflict` value (its own constructor of the error type, unequal
to every other error) and leaves the local configuration record exactly
as it was, for both `AddOS` and `AddMySQL`. -/
theorem C6_hostlist_conflict_distinct_error
    (sqlName loc dsn source distro version : String) (os1 inst : Instance) :
    (resultOf (HL.AddOS "10.0.0.5" true) (c6aWorld os1) cfgEmpty = .err .errHostConflict ∧
     cfgAfter (HL.AddOS "10.0.0.5" true) (c6aWorld os1) cfgEmpty = cfgEmpty) ∧
    (resultOf (HL.AddMySQL sqlName dsn source true distro version)
        (c6bWorld os1 inst loc sqlName) cfgStd = .err .errHostConflict ∧
     cfgAfter (HL.AddMySQL sqlName dsn source true distro version)
        (c6bWorld os1 inst loc sqlName) cfgStd = cfgStd) := by
  refine ⟨⟨?_, ?_⟩, ⟨?_, ?_⟩⟩ <;>
    simp [resultOf, traceOf, cfgAfter, runM, HL.AddOS, HL.AddMySQL, HL.getHost,
      HL.startMySQLExporters, PMM.localAgentInstances, PMM.localAgentId, PMM.startExporter,
      PMM.stopExporter, PMM.startQAN, PMM.stopQAN, discardErr, run_bind, run_pure, run_request,
      httpGet, httpPost, httpPut, httpDelete, throwE, getCfg, putCfg, worldOf, c6aWorld,
      c6bWorld, cfgStd, cfgEmpty, List.getD, decodeInstances, decodeInstance, decodeHosts,
      HostsMap.lookup, bodyText]

theorem foldl_id_of_skip {α β : Type} (f : β → α → β) (l : List α) (b : β)
    (h : ∀ b2 : β, ∀ x ∈ l, f b2 x = b2) : l.foldl f b = b := by
  induction l generalizing b with
  | nil => rfl
  | cons a t ih =>
    rw [List.foldl_cons, h b a (List.mem_cons_self a t)]
    exact ih b (fun b2 x hx => h b2 x (List.mem_cons_of_mem a hx))

/-- A config whose UUID matches no agent mysql instance contributes
nothing to the host-list `List` join and leaves the pending registry
mysql host pending. -/
theorem qanStep_no_match (ms : List Instance) (c : AgentConfig)
    (acc : Option Host × List InstanceStatus)
    (h : c.Service = "qan" → ∀ i2 ∈ ms, i2.UUID ≠ c.UUID) :
    HL.qanStep ms acc c = acc := by
  unfold HL.qanStep
  by_cases hs : c.Service = "qan"
  · rw [if_neg (by simp [hs])]
    exact foldl_id_of_skip _ ms acc (fun b2 x hx => by simp [h hs x hx])
  · rw [if_pos hs]

/-- Claim C9: in the host-list `List`, a registry mysql host at the
configured client address with no matching running QAN config (no qan
config's UUID matches any agent mysql instance) is not dropped: provided
a registry os host also matches the client address, the run succeeds and
the output's mysql list consists exactly of a row with Metrics "yes" and
Queries "no" (named, as the code does, after the OS host's alias). -/
theorem C9_list_keeps_configless_registry_instance
    (cA osAlias sqlAlias cu : String) (ms : List Instance) (configs : List AgentConfig)
    (hq : ∀ c ∈ configs, c.Service = "qan" → ∀ i2 ∈ ms, i2.UUID ≠ c.UUID) :
    resultOf HL.listInstances (c9World cA osAlias sqlAlias ms configs)
      { ClientAddress := cA, ClientUUID := cu, ServerAddress := "203.0.113.5" } =
    .ok { os := [{ Typ := "os", Name := osAlias, Metrics := "yes" }],
          mysql := [{ Typ := "mysql", Name := osAlias, Metrics := "yes", Queries := "no" }],
          mongodb := [] } := by
  have hfold : configs.foldl (HL.qanStep ms)
      ((some { Address := cA, Alias := sqlAlias } : Option Host), ([] : List InstanceStatus)) =
      ((some { Address := cA, Alias := sqlAlias } : Option Host), ([] : List InstanceStatus)) :=
    foldl_id_of_skip _ _ _ (fun b2 c hc => qanStep_no_match ms c b2 (hq c hc))
  simp [resultOf, runM, HL.listInstances, run_bind, run_pure, run_request, httpGet, throwE,
    panicE, getCfg, worldOf, c9World, List.getD, decodeHosts, decodeConfigs, decodeInstances,
    hfold]

/-- Witness for C9: a concrete run with one agent mysql instance and one
qan config whose UUIDs do not match. -/
theorem C9_witness :
    resultOf HL.listInstances
      (c9World "10.0.0.5" "host-a" "host-a" [{ UUID := "u-1", Name := "db1" }]
        [{ Service := "qan", UUID := "u-2" }])
      { ClientAddress := "10.0.0.5", ClientUUID := "cu-1", ServerAddress := "203.0.113.5" } =
    .ok { os := [{ Typ := "os", Name := "host-a", Metrics := "yes" }],
          mysql := [{ Typ := "mysql", Name := "host-a", Metrics := "yes", Queries := "no" }],
          mongodb := [] } := by
  exact C9_list_keeps_configless_registry_instance "10.0.0.5" "host-a" "host-a" "cu-1"
    [{ UUID := "u-1", Name := "db1" }] [{ Service := "qan", UUID := "u-2" }]
    (by intro c hc hs i2 hi2; simp at hc hi2; subst hc; subst hi2; decide)

/-- Claim C10: the host-list `List`, run in a state where some registry
mysql host carries the configured client address, no running QAN config
matches it (here: none at all), and no registry os host carries the
client address, dereferences the nil `osHost` pointer in the fallback
branch and panics — it returns neither a result nor an error. -/
theorem C10_list_panics_without_os_host (cA al cu : String) :
    resultOf HL.listInstances (c10World cA al)
      { ClientAddress := cA, ClientUUID := cu, ServerAddress := "203.0.113.5" } =
    .panicked nilDeref := by
  simp [resultOf, runM, HL.listInstances, HL.qanStep, run_bind, run_pure, run_request, httpGet,
    throwE, panicE, getCfg, worldOf, c10World, List.getD, decodeHosts, decodeConfigs,
    decodeInstances]

theorem appendsOnly_pure {α : Type} (P : Event → Prop) (a : α) :
    AppendsOnly P (pure a : AdminM α) := by
  intro w s
  exact ⟨[], by simp [run_pure], by simp⟩

theorem appendsOnly_throwE {α : Type} (P : Event → Prop) (e : GoError) :
    AppendsOnly P (throwE e : AdminM α) := by
  intro w s
  exact ⟨[], by simp [throwE], by simp⟩

theorem appendsOnly_panicE {α : Type} (P : Event → Prop) (msg : String) :
    AppendsOnly P (panicE msg : AdminM α) := by
  intro w s
  exact ⟨[], by simp [panicE], by simp⟩

theorem appendsOnly_getCfg (P : Event → Prop) : AppendsOnly P getCfg := by
  intro w s
  exact ⟨[], by simp [getCfg], by simp⟩

theorem appendsOnly_putCfg (P : Event → Prop) (c : Config) : AppendsOnly P (putCfg c) := by
  intro w s
  exact ⟨[], by simp [putCfg], by simp⟩

theorem appendsOnly_request (P : Event → Prop) (m : Method) (url : String) (b : ReqBody)
    (h : P ⟨m, url, b⟩) : AppendsOnly P (request m url b) := by
  intro w s
  exact ⟨[⟨m, url, b⟩], by simp [run_request], by simpa⟩

theorem appendsOnly_bind {α β : Type} (P : Event → Prop) (m : AdminM α) (f : α → AdminM β)
    (hm : AppendsOnly P m) (hf : ∀ a, AppendsOnly P (f a)) : AppendsOnly P (m >>= f) := by
  intro w s
  obtain ⟨L1, h1, hp1⟩ := hm w s
  rcases hmr : m w s with ⟨out, s1⟩
  rw [hmr] at h1
  simp only at h1
  cases out with
  | ok a =>
    obtain ⟨L2, h2, hp2⟩ := hf a w s1
    refine ⟨L1 ++ L2, ?_, ?_⟩
    · rw [run_bind, hmr]
      simp only
      rw [h2, h1, List.append_assoc]
    · intro e he
      rcases List.mem_append.mp he with h | h
      · exact hp1 e h
      · exact hp2 e h
  | err e2 =>
    refine ⟨L1, ?_, hp1⟩
    rw [run_bind, hmr]
    simpa using h1
  | panicked p =>
    refine ⟨L1, ?_, hp1⟩
    rw [run_bind, hmr]
    simpa using h1

theorem appendsOnly_ite {α : Type} (P : Event → Prop) (c : Prop) [Decidable c]
    (m1 m2 : AdminM α) (h1 : AppendsOnly P m1) (h2 : AppendsOnly P m2) :
    AppendsOnly P (if c then m1 else m2) := by
  by_cases hc : c
  · simpa [hc] using h1
  · simpa [hc] using h2

theorem appendsOnly_discardErr {α : Type} (P : Event → Prop) (m : AdminM α)
    (hm : AppendsOnly P m) : AppendsOnly P (discardErr m) := by
  intro w s
  obtain ⟨L, h1, hp⟩ := hm w s
  refine ⟨L, ?_, hp⟩
  unfold discardErr
  rcases hmr : m w s with ⟨out, s1⟩
  rw [hmr] at h1
  simp only at h1
  cases out <;> simpa using h1

theorem appendsOnly_localAgentInstances (P : Event → Prop)
    (h : ∀ u, P ⟨.get, u, .empty⟩) : AppendsOnly P PMM.localAgentInstances := by
  unfold PMM.localAgentInstances httpGet
  apply appendsOnly_bind
  · exact appendsOnly_request P .get _ .empty (h _)
  · intro a
    rcases a with _ | r
    · exact appendsOnly_throwE P _
    · apply appendsOnly_ite
      · exact appendsOnly_throwE P _
      · rcases decodeInstances r.body with _ | m2
        · exact appendsOnly_throwE P _
        · exact appendsOnly_pure P _

theorem appendsOnly_localAgentId (P : Event → Prop)
    (h : ∀ u, P ⟨.get, u, .empty⟩) : AppendsOnly P PMM.localAgentId := by
  unfold PMM.localAgentId httpGet
  apply appendsOnly_bind
  · exact appendsOnly_request P .get _ .empty (h _)
  · intro a
    rcases a with _ | r
    · exact appendsOnly_throwE P _
    · apply appendsOnly_ite
      · exact appendsOnly_throwE P _
      · exact appendsOnly_pure P _

theorem appendsOnly_stopExporter (P : Event → Prop) (name port : String)
    (h : ∀ u, P ⟨.delete, u, .empty⟩) : AppendsOnly P (PMM.stopExporter name port) := by
  unfold PMM.stopExporter httpDelete
  apply appendsOnly_bind
  · exact appendsOnly_request P .delete _ .empty (h _)
  · intro a
    rcases a with _ | r
    · exact appendsOnly_throwE P _
    · apply appendsOnly_ite
      · exact appendsOnly_pure P _
      · apply appendsOnly_ite
        · exact appendsOnly_pure P _
        · exact appendsOnly_throwE P _

theorem appendsOnly_serviceExists (P : Event → Prop) (host job : String)
    (h : ∀ u, P ⟨.get, u, .empty⟩) : AppendsOnly P (Consul.serviceExists host job) := by
  unfold Consul.serviceExists httpGet
  apply appendsOnly_bind
  · exact appendsOnly_getCfg P
  · intro cfg
    apply appendsOnly_bind
    · exact appendsOnly_request P .get _ .empty (h _)
    · intro a
      rcases a with _ | r
      · exact appendsOnly_throwE P _
      · apply appendsOnly_ite
        · exact appendsOnly_throwE P _
        · rcases decodeConsul r.body with _ | (_ | svcs)
          · exact appendsOnly_throwE P _
          · exact appendsOnly_pure P _
          · exact appendsOnly_pure P _

theorem appendsOnly_register (P : Event → Prop) (n : ConsulNodeReq)
    (h : ∀ u, P ⟨.put, u, .consulBody n⟩) : AppendsOnly P (Consul.register n) := by
  unfold Consul.register httpPut
  apply appendsOnly_bind
  · exact appendsOnly_getCfg P
  · intro cfg
    apply appendsOnly_bind
    · exact appendsOnly_request P .put _ _ (h _)
    · intro a
      rcases a with _ | r
      · exact appendsOnly_throwE P _
      · apply appendsOnly_ite
        · exact appendsOnly_throwE P _
        · exact appendsOnly_pure P _

theorem appendsOnly_deregister (P : Event → Prop) (node serviceID : String)
    (h : ∀ u, P ⟨.put, u, .consulBody { Node := node, ServiceID := serviceID }⟩) :
    AppendsOnly P (Consul.deregister node serviceID) := by
  unfold Consul.deregister httpPut
  apply appendsOnly_bind
  · exact appendsOnly_getCfg P
  · intro cfg
    apply appendsOnly_bind
    · exact appendsOnly_request P .put _ _ (h _)
    · intro a
      rcases a with _ | r
      · exact appendsOnly_throwE P _
      · apply appendsOnly_ite
        · exact appendsOnly_throwE P _
        · exact appendsOnly_pure P _

theorem appendsOnly_stopQAN (P : Event → Prop) (agentId : String) (inst : Instance)
    (h : ∀ u, P ⟨.put, u, .cmdBody "StopTool" inst.UUID ""⟩) :
    AppendsOnly P (PMM.stopQAN agentId inst) := by
  unfold PMM.stopQAN httpPut
  apply appendsOnly_bind
  · exact appendsOnly_getCfg P
  · intro cfg
    apply appendsOnly_bind
    · exact appendsOnly_request P .put _ _ (h _)
    · intro a
      rcases a with _ | r
      · exact appendsOnly_throwE P _
      · apply appendsOnly_ite
        · exact appendsOnly_throwE P _
        · exact appendsOnly_pure P _

theorem appendsOnly_startQAN (P : Event → Prop) (agentId uuid collectFrom : String)
    (h : ∀ u, P ⟨.put, u, .cmdBody "StartTool" uuid collectFrom⟩) :
    AppendsOnly P (PMM.startQAN agentId uuid collectFrom) := by
  unfold PMM.startQAN httpPut
  apply appendsOnly_bind
  · exact appendsOnly_getCfg P
  · intro cfg
    apply appendsOnly_bind
    · exact appendsOnly_request P .put _ _ (h _)
    · intro a
      rcases a with _ | r
      · exact appendsOnly_throwE P _
      · apply appendsOnly_ite
        · exact appendsOnly_throwE P _
        · exact appendsOnly_pure P _

theorem appendsOnly_addMySQLPre (P : Event → Prop) (name dsn distro version : String)
    (hget : ∀ u, P ⟨.get, u, .empty⟩)
    (hpost : ∀ u i, P ⟨.post, u, .instanceBody i⟩) :
    AppendsOnly P (Consul.addMySQLPre name dsn distro version) := by
  unfold Consul.addMySQLPre httpPost
  apply appendsOnly_bind
  · exact appendsOnly_getCfg P
  · intro cfg
    apply appendsOnly_ite
    · exact appendsOnly_throwE P _
    · apply appendsOnly_bind
      · exact appendsOnly_localAgentInstances P hget
      · intro instances
        apply appendsOnly_ite
        · exact appendsOnly_throwE P _
        · apply appendsOnly_bind
          · exact appendsOnly_request P .post _ _ (hpost _ _)
          · intro a
            rcases a with _ | r
            · exact appendsOnly_throwE P _
            · apply appendsOnly_ite
              · exact appendsOnly_throwE P _
              · apply appendsOnly_bind
                · exact appendsOnly_request P .get _ .empty (hget _)
                · intro a2
                  rcases a2 with _ | r2
                  · exact appendsOnly_throwE P _
                  · apply appendsOnly_ite
                    · exact appendsOnly_throwE P _
                    · rcases decodeInstance r2.body with _ | i2
                      · exact appendsOnly_throwE P _
                      · exact appendsOnly_pure P _

theorem appendsOnly_addMySQLRegister (P : Event → Prop) (name source : String) (inst : Instance)
    (hget : ∀ u, P ⟨.get, u, .empty⟩)
    (hconsul : ∀ u n, P ⟨.put, u, .consulBody n⟩)
    (hcmd : ∀ u v uu cf, P ⟨.put, u, .cmdBody v uu cf⟩) :
    AppendsOnly P (Consul.addMySQLRegister name source inst) := by
  unfold Consul.addMySQLRegister
  apply appendsOnly_bind
  · exact appendsOnly_getCfg P
  · intro cfg
    apply appendsOnly_bind
    · exact appendsOnly_serviceExists P _ _ hget
    · intro ok
      apply appendsOnly_ite
      · exact appendsOnly_throwE P _
      · apply appendsOnly_bind
        · exact appendsOnly_register P _ (fun u => hconsul u _)
        · intro _
          apply appendsOnly_bind
          · exact appendsOnly_register P _ (fun u => hconsul u _)
          · intro _
            apply appendsOnly_bind
            · exact appendsOnly_register P _ (fun u => hconsul u _)
            · intro _
              apply appendsOnly_bind
              · exact appendsOnly_localAgentId P hget
              · intro agentId
                apply appendsOnly_bind
                · exact appendsOnly_discardErr P _ (appendsOnly_stopQAN P _ _ (fun u => hcmd u _ _ _))
                · intro _
                  exact appendsOnly_startQAN P _ _ _ (fun u => hcmd u _ _ _)

/-- Trace shape of one `startExporter` run: it appends only exporter
POSTs and one possible stop DELETE, and when it succeeds the appended
events include a start POST for the exporter's port. -/
theorem startExporter_trace (P : Event → Prop) (exp : Exporter)
    (hpost : ∀ u, P ⟨.post, u, .exporterBody exp⟩)
    (hdel : ∀ u, P ⟨.delete, u, .empty⟩) (w : World) (s : St) :
    ∃ L, ((PMM.startExporter exp) w s).2.trace = s.trace ++ L ∧ (∀ e ∈ L, P e) ∧
      (((PMM.startExporter exp) w s).1 = .ok () → ∃ e ∈ L, isExpStart exp.Port e = true) := by
  rcases hw : w s.idx with _ | r
  · refine ⟨[⟨.post, startURL, .exporterBody exp⟩], ?_, ?_, ?_⟩
    · simp [PMM.startExporter, run_bind, run_request, httpPost, throwE, hw, startURL]
    · simpa using hpost _
    · simp [PMM.startExporter, run_bind, run_request, httpPost, throwE, hw]
  · by_cases h201 : r.status = 201
    · refine ⟨[⟨.post, startURL, .exporterBody exp⟩], ?_, ?_, ?_⟩
      · simp [PMM.startExporter, run_bind, run_pure, run_request, httpPost, throwE, hw, h201,
          startURL]
      · simpa using hpost _
      · intro _
        exact ⟨⟨.post, startURL, .exporterBody exp⟩, by simp, by simp [isExpStart, isPostEv]⟩
    · by_cases h409 : r.status = 409
      · rcases hw1 : w (s.idx + 1) with _ | r2
        · refine ⟨[⟨.post, startURL, .exporterBody exp⟩,
                   ⟨.delete, stopURL exp.Name exp.Port, .empty⟩], ?_, ?_, ?_⟩
          · simp [PMM.startExporter, PMM.stopExporter, run_bind, run_pure, run_request, httpPost,
              httpDelete, throwE, hw, hw1, h201, h409, startURL, stopURL]
          · intro e he
            simp only [List.mem_cons, List.not_mem_nil, or_false] at he
            rcases he with rfl | rfl
            · exact hpost _
            · exact hdel _
          · simp [PMM.startExporter, PMM.stopExporter, run_bind, run_pure, run_request, httpPost,
              httpDelete, throwE, hw, hw1, h201, h409]
        · by_cases hst : r2.status = 200 ∨ r2.status = 404
          · rcases hw2 : w (s.idx + 2) with _ | r3
            · refine ⟨[⟨.post, startURL, .exporterBody exp⟩,
                       ⟨.delete, stopURL exp.Name exp.Port, .empty⟩,
                       ⟨.post, startURL, .exporterBody exp⟩], ?_, ?_, ?_⟩
              · rcases hst with h2 | h2 <;>
                  simp [PMM.startExporter, PMM.stopExporter, run_bind, run_pure, run_request,
                    httpPost, httpDelete, throwE, hw, hw1, hw2, h201, h409, h2, startURL, stopURL]
              · intro e he
                simp only [List.mem_cons, List.not_mem_nil, or_false] at he
                rcases he with rfl | rfl | rfl
                · exact hpost _
                · exact hdel _
                · exact hpost _
              · rcases hst with h2 | h2 <;>
                  simp [PMM.startExporter, PMM.stopExporter, run_bind, run_pure, run_request,
                    httpPost, httpDelete, throwE, hw, hw1, hw2, h201, h409, h2]
            · refine ⟨[⟨.post, startURL, .exporterBody exp⟩,
                       ⟨.delete, stopURL exp.Name exp.Port, .empty⟩,
                       ⟨.post, startURL, .exporterBody exp⟩], ?_, ?_, ?_⟩
              · rcases hst with h2 | h2 <;> by_cases h3 : r3.status = 201 <;>
                  simp [PMM.startExporter, PMM.stopExporter, run_bind, run_pure, run_request,
                    httpPost, httpDelete, throwE, hw, hw1, hw2, h201, h409, h2, h3,
                    startURL, stopURL]
              · intro e he
                simp only [List.mem_cons, List.not_mem_nil, or_false] at he
                rcases he with rfl | rfl | rfl
                · exact hpost _
                · exact hdel _
                · exact hpost _
              · intro _
                exact ⟨⟨.post, startURL, .exporterBody exp⟩, by simp, by simp [isExpStart, isPostEv]⟩
          · push_neg at hst
            refine ⟨[⟨.post, startURL, .exporterBody exp⟩,
                     ⟨.delete, stopURL exp.Name exp.Port, .empty⟩], ?_, ?_, ?_⟩
            · simp [PMM.startExporter, PMM.stopExporter, run_bind, run_pure, run_request,
                httpPost, httpDelete, throwE, hw, hw1, h201, h409, hst.1, hst.2, startURL, stopURL]
            · intro e he
              simp only [List.mem_cons, List.not_mem_nil, or_false] at he
              rcases he with rfl | rfl
              · exact hpost _
              · exact hdel _
            · simp [PMM.startExporter, PMM.stopExporter, run_bind, run_pure, run_request,
                httpPost, httpDelete, throwE, hw, hw1, h201, h409, hst.1, hst.2]
      · refine ⟨[⟨.post, startURL, .exporterBody exp⟩], ?_, ?_, ?_⟩
        · simp [PMM.startExporter, run_bind, run_pure, run_request, httpPost, throwE, hw, h201,
            h409, startURL]
        · simpa using hpost _
        · simp [PMM.startExporter, run_bind, run_pure, run_request, httpPost, throwE, hw, h201,
            h409]

/-- Trace shape of starting three exporters in sequence: only
non-catalog events are appended, and on success the appended events
include a start POST for each of the three ports. -/
theorem startExporter_seq3 (e1 e2 e3 : Exporter) (w : World) (s : St)
    (h1 : e1.Port = "9104") (h2 : e2.Port = "9105") (h3 : e3.Port = "9106") :
    ∃ L, ((PMM.startExporter e1 >>= fun _ =>
           PMM.startExporter e2 >>= fun _ =>
           PMM.startExporter e3) w s).2.trace = s.trace ++ L ∧
      (∀ e ∈ L, isConsulReq e = false) ∧
      (((PMM.startExporter e1 >>= fun _ =>
         PMM.startExporter e2 >>= fun _ =>
         PMM.startExporter e3) w s).1 = .ok () →
        ∀ p ∈ (["9104", "9105", "9106"] : List String), ∃ e ∈ L, isExpStart p e = true) := by
  obtain ⟨L1, hL1, hp1, hc1⟩ :=
    startExporter_trace (fun e => isConsulReq e = false) e1 (fun _ => rfl) (fun _ => rfl) w s
  rcases hr1 : PMM.startExporter e1 w s with ⟨out1, s1⟩
  rw [hr1] at hL1 hc1
  simp only at hL1 hc1
  cases out1 with
  | ok a =>
    cases a
    obtain ⟨L2, hL2, hp2, hc2⟩ :=
      startExporter_trace (fun e => isConsulReq e = false) e2 (fun _ => rfl) (fun _ => rfl) w s1
    rcases hr2 : PMM.startExporter e2 w s1 with ⟨out2, s2⟩
    rw [hr2] at hL2 hc2
    simp only at hL2 hc2
    cases out2 with
    | ok a2 =>
      cases a2
      obtain ⟨L3, hL3, hp3, hc3⟩ :=
        startExporter_trace (fun e => isConsulReq e = false) e3 (fun _ => rfl) (fun _ => rfl) w s2
      rcases hr3 : PMM.startExporter e3 w s2 with ⟨out3, s3⟩
      rw [hr3] at hL3 hc3
      simp only at hL3 hc3
      have hrun : ((PMM.startExporter e1 >>= fun _ =>
          PMM.startExporter e2 >>= fun _ =>
          PMM.startExporter e3) w s) = (out3, s3) := by
        simp only [run_bind, hr1, hr2, hr3]
      refine ⟨L1 ++ L2 ++ L3, ?_, ?_, ?_⟩
      · rw [hrun]
        show s3.trace = s.trace ++ (L1 ++ L2 ++ L3)
        rw [hL3, hL2, hL1]
        simp [List.append_assoc]
      · intro e he
        rcases List.mem_append.mp he with he2 | he2
        · rcases List.mem_append.mp he2 with he3 | he3
          · exact hp1 e he3
          · exact hp2 e he3
        · exact hp3 e he2
      · rw [hrun]
        intro hok p hp
        have m1 : ∀ e ∈ L1, e ∈ L1 ++ L2 ++ L3 := fun e he =>
          List.mem_append.mpr (Or.inl (List.mem_append.mpr (Or.inl he)))
        have m2 : ∀ e ∈ L2, e ∈ L1 ++ L2 ++ L3 := fun e he =>
          List.mem_append.mpr (Or.inl (List.mem_append.mpr (Or.inr he)))
        have m3 : ∀ e ∈ L3, e ∈ L1 ++ L2 ++ L3 := fun e he =>
          List.mem_append.mpr (Or.inr he)
        simp only [List.mem_cons, List.not_mem_nil, or_false] at hp
        rcases hp with rfl | rfl | rfl
        · obtain ⟨e, he, hpe⟩ := hc1 rfl
          exact ⟨e, m1 e he, h1 ▸ hpe⟩
        · obtain ⟨e, he, hpe⟩ := hc2 rfl
          exact ⟨e, m2 e he, h2 ▸ hpe⟩
        · obtain ⟨e, he, hpe⟩ := hc3 (by exact hok)
          exact ⟨e, m3 e he, h3 ▸ hpe⟩
    | err e2x =>
      have hrun : ((PMM.startExporter e1 >>= fun _ =>
          PMM.startExporter e2 >>= fun _ =>
          PMM.startExporter e3) w s) = (.err e2x, s2) := by
        simp only [run_bind, hr1, hr2]
      refine ⟨L1 ++ L2, ?_, ?_, ?_⟩
      · rw [hrun]
        show s2.trace = s.trace ++ (L1 ++ L2)
        rw [hL2, hL1, List.append_assoc]
      · intro e he
        rcases List.mem_append.mp he with he2 | he2
        · exact hp1 e he2
        · exact hp2 e he2
      · rw [hrun]
        intro hok
        exact Outcome.noConfusion hok
    | panicked p2 =>
      have hrun : ((PMM.startExporter e1 >>= fun _ =>
          PMM.startExporter e2 >>= fun _ =>
          PMM.startExporter e3) w s) = (.panicked p2, s2) := by
        simp only [run_bind, hr1, hr2]
      refine ⟨L1 ++ L2, ?_, ?_, ?_⟩
      · rw [hrun]
        show s2.trace = s.trace ++ (L1 ++ L2)
        rw [hL2, hL1, List.append_assoc]
      · intro e he
        rcases List.mem_append.mp he with he2 | he2
        · exact hp1 e he2
        · exact hp2 e he2
      · rw [hrun]
        intro hok
        exact Outcome.noConfusion hok
  | err e1x =>
    have hrun : ((PMM.startExporter e1 >>= fun _ =>
        PMM.startExporter e2 >>= fun _ =>
        PMM.startExporter e3) w s) = (.err e1x, s1) := by
      simp only [run_bind, hr1]
    refine ⟨L1, ?_, hp1, ?_⟩
    · rw [hrun]
      exact hL1
    · rw [hrun]
      intro hok
      exact Outcome.noConfusion hok
  | panicked p1 =>
    have hrun : ((PMM.startExporter e1 >>= fun _ =>
        PMM.startExporter e2 >>= fun _ =>
        PMM.startExporter e3) w s) = (.panicked p1, s1) := by
      simp only [run_bind, hr1]
    refine ⟨L1, ?_, hp1, ?_⟩
    · rw [hrun]
      exact hL1
    · rw [hrun]
      intro hok
      exact Outcome.noConfusion hok

/-- Trace shape of the catalog variant's `startMySQLExporters`. -/
theorem consulSME_trace (u : String) (w : World) (s : St) :
    ∃ L, ((Consul.startMySQLExporters u) w s).2.trace = s.trace ++ L ∧
      (∀ e ∈ L, isConsulReq e = false) ∧
      (((Consul.startMySQLExporters u) w s).1 = .ok () →
        ∀ p ∈ (["9104", "9105", "9106"] : List String), ∃ e ∈ L, isExpStart p e = true) := by
  unfold Consul.startMySQLExporters
  rw [run_bind]
  simp only [getCfg]
  exact startExporter_seq3 _ _ _ w s rfl rfl rfl

/-- Trace shape of one catalog `deregister` call: it appends a single
PUT (no DELETE), a catalog event, and succeeds only having issued it. -/
theorem deregister_trace (node serviceID : String) (w : World) (s : St) :
    ∃ L, ((Consul.deregister node serviceID) w s).2.trace = s.trace ++ L ∧
      (∀ e ∈ L, isDeleteEv e = false) ∧
      (((Consul.deregister node serviceID) w s).1 = .ok () → ∃ e ∈ L, isConsulReq e = true) := by
  rcases hw : w s.idx with _ | r
  · refine ⟨[⟨.put, apiURL (s.cfg.ServerAddress ++ ":" ++ CONSUL_PORT) ["v1", "catalog", "deregister"],
        .consulBody { Node := node, ServiceID := serviceID }⟩], ?_, ?_, ?_⟩
    · simp [Consul.deregister, run_bind, run_request, httpPut, throwE, getCfg, hw]
    · simp [isDeleteEv]
    · simp [Consul.deregister, run_bind, run_request, httpPut, throwE, getCfg, hw]
  · by_cases h200 : r.status = 200
    · refine ⟨[⟨.put, apiURL (s.cfg.ServerAddress ++ ":" ++ CONSUL_PORT) ["v1", "catalog", "deregister"],
          .consulBody { Node := node, ServiceID := serviceID }⟩], ?_, ?_, ?_⟩
      · simp [Consul.deregister, run_bind, run_pure, run_request, httpPut, throwE, getCfg, hw, h200]
      · simp [isDeleteEv]
      · intro _
        exact ⟨⟨.put, apiURL (s.cfg.ServerAddress ++ ":" ++ CONSUL_PORT)
            ["v1", "catalog", "deregister"],
          .consulBody { Node := node, ServiceID := serviceID }⟩, by simp, rfl⟩
    · refine ⟨[⟨.put, apiURL (s.cfg.ServerAddress ++ ":" ++ CONSUL_PORT) ["v1", "catalog", "deregister"],
          .consulBody { Node := node, ServiceID := serviceID }⟩], ?_, ?_, ?_⟩
      · simp [Consul.deregister, run_bind, run_pure, run_request, httpPut, throwE, getCfg, hw, h200]
      · simp [isDeleteEv]
      · simp [Consul.deregister, run_bind, run_pure, run_request, httpPut, throwE, getCfg, hw, h200]

/-- Trace shape of the catalog `RemoveOS` up to and including the
deregistration: no DELETE is issued, and on success a catalog call was
issued. -/
theorem removeOSDereg_trace (name : String) (w : World) (s : St) :
    ∃ L, ((Consul.removeOSDereg name) w s).2.trace = s.trace ++ L ∧
      (∀ e ∈ L, isDeleteEv e = false) ∧
      (((Consul.removeOSDereg name) w s).1 = .ok () → ∃ e ∈ L, isConsulReq e = true) := by
  obtain ⟨L1, hL1, hp1⟩ :=
    appendsOnly_serviceExists (fun e => isDeleteEv e = false) name "linux" (fun _ => rfl) w s
  rcases hr1 : Consul.serviceExists name "linux" w s with ⟨out1, s1⟩
  rw [hr1] at hL1
  simp only at hL1
  cases out1 with
  | ok b =>
    cases b with
    | false =>
      have hrun : (Consul.removeOSDereg name) w s =
          (.err (.msgE "PMM is not monitoring this OS instance"), s1) := by
        simp only [Consul.removeOSDereg, run_bind, hr1]
        simp [throwE]
      refine ⟨L1, ?_, hp1, ?_⟩
      · rw [hrun]
        exact hL1
      · rw [hrun]
        intro hok
        exact Outcome.noConfusion hok
    | true =>
      obtain ⟨L2, hL2, hp2, hc2⟩ := deregister_trace name "linux" w s1
      rcases hr2 : Consul.deregister name "linux" w s1 with ⟨out2, s2⟩
      rw [hr2] at hL2 hc2
      simp only at hL2 hc2
      have hrun : (Consul.removeOSDereg name) w s = (out2, s2) := by
        simp only [Consul.removeOSDereg, run_bind, hr1]
        simp [hr2]
      refine ⟨L1 ++ L2, ?_, ?_, ?_⟩
      · rw [hrun]
        show s2.trace = s.trace ++ (L1 ++ L2)
        rw [hL2, hL1, List.append_assoc]
      · intro e he
        rcases List.mem_append.mp he with he2 | he2
        · exact hp1 e he2
        · exact hp2 e he2
      · rw [hrun]
        intro hok
        obtain ⟨e, he, hpe⟩ := hc2 hok
        exact ⟨e, List.mem_append.mpr (Or.inr he), hpe⟩
  | err e1 =>
    have hrun : (Consul.removeOSDereg name) w s = (.err e1, s1) := by
      simp only [Consul.removeOSDereg, run_bind, hr1]
    refine ⟨L1, ?_, hp1, ?_⟩
    · rw [hrun]
      exact hL1
    · rw [hrun]
      intro hok
      exact Outcome.noConfusion hok
  | panicked p1 =>
    have hrun : (Consul.removeOSDereg name) w s = (.panicked p1, s1) := by
      simp only [Consul.removeOSDereg, run_bind, hr1]
    refine ⟨L1, ?_, hp1, ?_⟩
    · rw [hrun]
      exact hL1
    · rw [hrun]
      intro hok
      exact Outcome.noConfusion hok

/-- Claim C7: (1) in the catalog variant's `AddMySQL` with start, every
catalog registration event in the trace comes after starts of all three
mysql exporters — the trace splits into a registration-free prefix
containing start POSTs for ports 9104, 9105 and 9106, followed by the
rest (and when the exporter phase fails, no registration event occurs at
all); (2) in the catalog variant's `RemoveOS`, the registry
deregistration precedes every exporter stop — either no DELETE occurs or
the trace splits into a DELETE-free prefix containing a catalog call,
followed only by DELETEs; (3) in `stopMySQLExporters` (shared by both
later variants) a failure of the first or second stop aborts the
remaining stop sequence: the operation returns that stop's error and no
further stop request is issued. -/
theorem C7_exporters_before_registry_and_teardown_order :
    (∀ (w : World) (cfg : Config) (name dsn source distro version : String),
       RegAfterExporters isConsulReq
         (traceOf (Consul.AddMySQL name dsn source true distro version) w cfg)) ∧
    (∀ (w : World) (cfg : Config) (name : String),
       DeregBeforeStops (traceOf (Consul.RemoveOS name) w cfg)) ∧
    (∀ (w : World) (cfg : Config) (r1 : Resp), w 0 = some r1 →
       r1.status ≠ 200 → r1.status ≠ 404 →
       resultOf PMM.stopMySQLExporters w cfg =
         .err (.apiE "DELETE" (stopURL "mysqld_exporter" "9104") r1.status 200) ∧
       traceOf PMM.stopMySQLExporters w cfg =
         [⟨.delete, stopURL "mysqld_exporter" "9104", .empty⟩]) ∧
    (∀ (w : World) (cfg : Config) (r1 r2 : Resp), w 0 = some r1 →
       r1.status = 200 ∨ r1.status = 404 →
       w 1 = some r2 → r2.status ≠ 200 → r2.status ≠ 404 →
       resultOf PMM.stopMySQLExporters w cfg =
         .err (.apiE "DELETE" (stopURL "mysqld_exporter" "9105") r2.status 200) ∧
       traceOf PMM.stopMySQLExporters w cfg =
         [⟨.delete, stopURL "mysqld_exporter" "9104", .empty⟩,
          ⟨.delete, stopURL "mysqld_exporter" "9105", .empty⟩]) := by
  refine ⟨?_, ?_, ?_, ?_⟩
  · intro w cfg name dsn source distro version
    obtain ⟨L1, hL1, hp1⟩ := appendsOnly_addMySQLPre (fun e => isConsulReq e = false)
      name dsn distro version (fun _ => rfl) (fun _ _ => rfl) w ⟨0, cfg, []⟩
    rcases hr1 : Consul.addMySQLPre name dsn distro version w ⟨0, cfg, []⟩ with ⟨out1, s1⟩
    rw [hr1] at hL1
    simp only [List.nil_append] at hL1
    cases out1 with
    | ok inst =>
      obtain ⟨L2, hL2, hp2, hc2⟩ := consulSME_trace inst.UUID w s1
      rcases hr2 : Consul.startMySQLExporters inst.UUID w s1 with ⟨out2, s2⟩
      rw [hr2] at hL2 hc2
      simp only at hL2 hc2
      cases out2 with
      | ok a2 =>
        cases a2
        obtain ⟨L3, hL3, hp3⟩ := appendsOnly_addMySQLRegister (fun _ => True) name source inst
          (fun _ => trivial) (fun _ _ => trivial) (fun _ _ _ _ => trivial) w s2
        rcases hr3 : Consul.addMySQLRegister name source inst w s2 with ⟨out3, s3⟩
        rw [hr3] at hL3
        simp only at hL3
        have hrun : (Consul.AddMySQL name dsn source true distro version) w ⟨0, cfg, []⟩ =
            (out3, s3) := by
          simp only [Consul.AddMySQL, Consul.addMySQLMonitor, run_bind, hr1]
          simp [run_bind, hr2, hr3]
        right
        refine ⟨L1 ++ L2, L3, ?_, ?_, ?_⟩
        · unfold traceOf runM
          rw [hrun]
          show s3.trace = L1 ++ L2 ++ L3
          rw [hL3, hL2, hL1, List.append_assoc]
        · intro e he
          rcases List.mem_append.mp he with he2 | he2
          · exact hp1 e he2
          · exact hp2 e he2
        · intro p hp
          obtain ⟨e, he, hpe⟩ := hc2 rfl p hp
          exact ⟨e, List.mem_append.mpr (Or.inr he), hpe⟩
      | err e2 =>
        have hrun : (Consul.AddMySQL name dsn source true distro version) w ⟨0, cfg, []⟩ =
            (.err e2, s2) := by
          simp only [Consul.AddMySQL, Consul.addMySQLMonitor, run_bind, hr1]
          simp [run_bind, hr2]
        left
        intro e he
        unfold traceOf runM at he
        rw [hrun] at he
        simp only at he
        rw [hL2, hL1] at he
        rcases List.mem_append.mp he with he2 | he2
        · exact hp1 e he2
        · exact hp2 e he2
      | panicked p2 =>
        have hrun : (Consul.AddMySQL name dsn source true distro version) w ⟨0, cfg, []⟩ =
            (.panicked p2, s2) := by
          simp only [Consul.AddMySQL, Consul.addMySQLMonitor, run_bind, hr1]
          simp [run_bind, hr2]
        left
        intro e he
        unfold traceOf runM at he
        rw [hrun] at he
        simp only at he
        rw [hL2, hL1] at he
        rcases List.mem_append.mp he with he2 | he2
        · exact hp1 e he2
        · exact hp2 e he2
    | err e1 =>
      have hrun : (Consul.AddMySQL name dsn source true distro version) w ⟨0, cfg, []⟩ =
          (.err e1, s1) := by
        simp only [Consul.AddMySQL, run_bind, hr1]
      left
      intro e he
      unfold traceOf runM at he
      rw [hrun] at he
      simp only at he
      rw [hL1] at he
      exact hp1 e he
    | panicked p1 =>
      have hrun : (Consul.AddMySQL name dsn source true distro version) w ⟨0, cfg, []⟩ =
          (.panicked p1, s1) := by
        simp only [Consul.AddMySQL, run_bind, hr1]
      left
      intro e he
      unfold traceOf runM at he
      rw [hrun] at he
      simp only at he
      rw [hL1] at he
      exact hp1 e he
  · intro w cfg name
    obtain ⟨L1, hL1, hp1, hc1⟩ := removeOSDereg_trace name w ⟨0, cfg, []⟩
    rcases hr1 : Consul.removeOSDereg name w ⟨0, cfg, []⟩ with ⟨out1, s1⟩
    rw [hr1] at hL1 hc1
    simp only [List.nil_append] at hL1 hc1
    cases out1 with
    | ok a =>
      cases a
      obtain ⟨L2, hL2, hp2⟩ := appendsOnly_stopExporter (fun e => isDeleteEv e = true)
        "node_exporter" "9100" (fun _ => rfl) w s1
      rcases hr2 : PMM.stopExporter "node_exporter" "9100" w s1 with ⟨out2, s2⟩
      rw [hr2] at hL2
      simp only at hL2
      have hrun : (Consul.RemoveOS name) w ⟨0, cfg, []⟩ = (out2, s2) := by
        simp only [Consul.RemoveOS, run_bind, hr1]
        simp [run_bind, hr2]
      right
      refine ⟨L1, L2, ?_, hp1, hc1 rfl, hp2⟩
      unfold traceOf runM
      rw [hrun]
      show s2.trace = L1 ++ L2
      rw [hL2, hL1]
    | err e1 =>
      have hrun : (Consul.RemoveOS name) w ⟨0, cfg, []⟩ = (.err e1, s1) := by
        simp only [Consul.RemoveOS, run_bind, hr1]
      left
      intro e he
      unfold traceOf runM at he
      rw [hrun] at he
      simp only at he
      rw [hL1] at he
      exact hp1 e he
    | panicked p1 =>
      have hrun : (Consul.RemoveOS name) w ⟨0, cfg, []⟩ = (.panicked p1, s1) := by
        simp only [Consul.RemoveOS, run_bind, hr1]
      left
      intro e he
      unfold traceOf runM at he
      rw [hrun] at he
      simp only at he
      rw [hL1] at he
      exact hp1 e he
  · intro w cfg r1 h0 hne1 hne2
    constructor <;>
      simp [resultOf, traceOf, runM, PMM.stopMySQLExporters, PMM.stopExporter, run_bind,
        run_pure, run_request, httpDelete, throwE, h0, hne1, hne2, stopURL]
  · intro w cfg r1 r2 h0 hok h1 hne1 hne2
    rcases hok with hok | hok <;>
      constructor <;>
        simp [resultOf, traceOf, runM, PMM.stopMySQLExporters, PMM.stopExporter, run_bind,
          run_pure, run_request, httpDelete, throwE, h0, h1, hok, hne1, hne2, stopURL]

/-- Witness for C7: at concrete worlds, a first-stop failure (500)
aborts `stopMySQLExporters` after one DELETE, a second-stop failure
aborts after two DELETEs, and the catalog `AddMySQL` ordering property
holds of a concrete complete run. -/
theorem C7_witness :
    (resultOf PMM.stopMySQLExporters (worldOf [some ⟨500, "", .empty⟩]) cfgStd =
       .err (.apiE "DELETE" (stopURL "mysqld_exporter" "9104") 500 200) ∧
     traceOf PMM.stopMySQLExporters (worldOf [some ⟨500, "", .empty⟩]) cfgStd =
       [⟨.delete, stopURL "mysqld_exporter" "9104", .empty⟩]) ∧
    (resultOf PMM.stopMySQLExporters
       (worldOf [some ⟨200, "", .empty⟩, some ⟨500, "", .empty⟩]) cfgStd =
       .err (.apiE "DELETE" (stopURL "mysqld_exporter" "9105") 500 200) ∧
     traceOf PMM.stopMySQLExporters
       (worldOf [some ⟨200, "", .empty⟩, some ⟨500, "", .empty⟩]) cfgStd =
       [⟨.delete, stopURL "mysqld_exporter" "9104", .empty⟩,
        ⟨.delete, stopURL "mysqld_exporter" "9105", .empty⟩]) ∧
    RegAfterExporters isConsulReq
      (traceOf (Consul.AddMySQL "db1" "dsn1" "auto" true "d" "v")
        (c4World osA "loc1" instA) cfgStd) := by
  refine ⟨?_, ?_, ?_⟩
  · exact C7_exporters_before_registry_and_teardown_order.2.2.1
      (worldOf [some ⟨500, "", .empty⟩]) cfgStd ⟨500, "", .empty⟩ rfl
      (by decide) (by decide)
  · exact C7_exporters_before_registry_and_teardown_order.2.2.2
      (worldOf [some ⟨200, "", .empty⟩, some ⟨500, "", .empty⟩]) cfgStd
      ⟨200, "", .empty⟩ ⟨500, "", .empty⟩ rfl (Or.inl rfl) rfl (by decide) (by decide)
  · exact C7_exporters_before_registry_and_teardown_order.1
      (c4World osA "loc1" instA) cfgStd "db1" "dsn1" "auto" "d" "v"
